import Mathlib

/-!
Shallow embedding of the shader-object validation core of the
Vulkan-ValidationLayers repository (layers/core_checks/cc_shader_object.cpp),
together with theorems settling the frozen claims about its specification.

Conventions of the embedding:
* Vulkan stage / flag / queue bitmask values are `Nat` constants with their
  exact numeric values; bit tests use `&&&`, `|||`, `^^^` as in the C++.
  Bitmask fields (`stage`, `nextStage`, `flags`) are 32-bit in the source;
  complements are taken against the 32-bit all-ones mask, as the C++ `~` does
  on `VkFlags`.
* Each `LogError` call becomes one `Violation` value carrying the VUID tag of
  the message and the list of descriptor / array indices the message names.
  `skip |= LogError(...)` accumulation becomes list concatenation in source
  order; the resulting list is the set of violations one call reports.
* External collaborators that are out of the validation core's scope (the
  SPIR-V entry-point metadata provider, the object-lifetime handle table, the
  queue-capability provider) appear as explicit inputs: a parsed-metadata
  field, a lookup function, a queue-flags word.
-/

/-! ## Vulkan constants (exact numeric values from vulkan_core.h) -/

def VK_SHADER_STAGE_VERTEX_BIT : Nat := 0x00000001
def VK_SHADER_STAGE_TESSELLATION_CONTROL_BIT : Nat := 0x00000002
def VK_SHADER_STAGE_TESSELLATION_EVALUATION_BIT : Nat := 0x00000004
def VK_SHADER_STAGE_GEOMETRY_BIT : Nat := 0x00000008
def VK_SHADER_STAGE_FRAGMENT_BIT : Nat := 0x00000010
def VK_SHADER_STAGE_COMPUTE_BIT : Nat := 0x00000020
def VK_SHADER_STAGE_TASK_BIT_EXT : Nat := 0x00000040
def VK_SHADER_STAGE_MESH_BIT_EXT : Nat := 0x00000080
def VK_SHADER_STAGE_ALL_GRAPHICS : Nat := 0x0000001F
def VK_SHADER_STAGE_ALL : Nat := 0x7FFFFFFF
def VK_SHADER_STAGE_SUBPASS_SHADING_BIT_HUAWEI : Nat := 0x00004000
def VK_SHADER_STAGE_CLUSTER_CULLING_BIT_HUAWEI : Nat := 0x00080000

/-- Union of the six KHR ray-tracing stage bits, as the layer utility constant
`kShaderStageAllRayTracing` defines it (raygen | any-hit | closest-hit | miss |
intersection | callable = 0x100 | 0x200 | 0x400 | 0x800 | 0x1000 | 0x2000). -/
def kShaderStageAllRayTracing : Nat := 0x00003F00

def VK_SHADER_CREATE_LINK_STAGE_BIT_EXT : Nat := 0x00000001
def VK_SHADER_CREATE_ALLOW_VARYING_SUBGROUP_SIZE_BIT_EXT : Nat := 0x00000002
def VK_SHADER_CREATE_REQUIRE_FULL_SUBGROUPS_BIT_EXT : Nat := 0x00000004
def VK_SHADER_CREATE_NO_TASK_SHADER_BIT_EXT : Nat := 0x00000008
def VK_SHADER_CREATE_FRAGMENT_SHADING_RATE_ATTACHMENT_BIT_EXT : Nat := 0x00000020
def VK_SHADER_CREATE_FRAGMENT_DENSITY_MAP_ATTACHMENT_BIT_EXT : Nat := 0x00000040

def VK_QUEUE_GRAPHICS_BIT : Nat := 0x00000001
def VK_QUEUE_COMPUTE_BIT : Nat := 0x00000002

/-- All-ones 32-bit mask; `~m` on a `VkFlags` value is `kU32AllOnes ^^^ m`. -/
def kU32AllOnes : Nat := 0xFFFFFFFF

/-- Sentinel `vvl::kU32Max`: an execution mode's `output_vertices` equal to it
means "not declared by the shader". -/
def kU32Max : Nat := 0xFFFFFFFF

/-! ## Data model -/

/-- `VkShaderCodeTypeEXT`: the two code representations of a descriptor. -/
inductive CodeType where
  | spirv
  | binary
deriving DecidableEq, Repr

/-- Entry-point execution-mode facts extracted from a SPIR-V module by the
module/entry-point metadata provider (external collaborator): the fields of
`spirv::ExecutionModeSet` that the shader-object checks read.  `pointMode`
models the `point_mode_bit` flag test. -/
structure ExecutionModeSet where
  tessellation_subdivision : Nat
  tessellation_orientation : Nat
  tessellation_spacing : Nat
  pointMode : Bool
  output_vertices : Nat
deriving DecidableEq, Repr

/-- One `VkShaderCreateInfoEXT` entry of a creation batch.  `entryPoint` is
the parse result the metadata provider returns for the descriptor's code
(`none` models a missing entry point). -/
structure CreateInfo where
  stage : Nat
  nextStage : Nat
  flags : Nat
  codeType : CodeType
  entryPoint : Option ExecutionModeSet
deriving DecidableEq, Repr

/-- The enabled-capability configuration (`enabled_features` fields the
shader-object checks consult), passed explicitly into every validator. -/
structure Features where
  shaderObject : Bool
  tessellationShader : Bool
  geometryShader : Bool
  taskShader : Bool
  meshShader : Bool
  attachmentFragmentShadingRate : Bool
  fragmentDensityMap : Bool
  subgroupSizeControl : Bool
  computeFullSubgroups : Bool
deriving DecidableEq, Repr

/-- Configuration with every optional capability enabled. -/
def allFeatures : Features :=
  { shaderObject := true
    tessellationShader := true
    geometryShader := true
    taskShader := true
    meshShader := true
    attachmentFragmentShadingRate := true
    fragmentDensityMap := true
    subgroupSizeControl := true
    computeFullSubgroups := true }

/-- VUID tags of the `LogError` calls in cc_shader_object.cpp, one constructor
per distinct VUID string appearing in the file's checks. -/
inductive Vuid where
  | v08419 | v08420 | v08421 | v08422
  | v08487 | v08489
  | v08409 | v08410
  | v08428 | v08429 | v08430 | v08431 | v08433 | v08434 | v08435 | v08436
  | v09404 | v09405
  | v08402 | v08403 | v08404 | v08405 | v08411
  | v08872 | v08873 | v08874 | v08453
  | v08867 | v08868 | v08869 | v08870
  | v08462 | v08463 | v08474 | v08475 | v08476 | v08477 | v08478
  | v08490 | v08491 | v08464 | v08465 | v08467 | v08468 | v08469
  | v08470 | v08471
  | v08607 | v08684 | v08685 | v08686 | v08687 | v08688 | v08689 | v08690
  | v08693 | v08694 | v08695 | v08696
  | v08885
deriving DecidableEq, Repr

/-- One reported violation: the VUID of the `LogError` call and the
descriptor / array indices its message names (in message order). -/
structure Violation where
  vuid : Vuid
  args : List Nat
deriving DecidableEq, Repr

/-- Conditional single-violation emission: the shape of every
`if (cond) skip |= LogError(...)` site. -/
def vif {α : Type} (c : Prop) [Decidable c] (v : α) : List α :=
  if c then [v] else []

/-- Pair emission guarded on two tracked indices both being set, the shape of
the post-loop aggregate checks (`if (a != invalid && b != invalid)`). -/
def vpair (x y : Option Nat) (u : Vuid) : List Violation :=
  match x, y with
  | some a, some b => [⟨u, [a, b]⟩]
  | _, _ => []

/-! ## FindNextStage (cc_shader_object.cpp lines 24-65) -/

/-- The fixed graphics chain array `graphicsStages` of `FindNextStage`. -/
def graphicsStagesList : List Nat :=
  [VK_SHADER_STAGE_VERTEX_BIT, VK_SHADER_STAGE_TESSELLATION_CONTROL_BIT,
   VK_SHADER_STAGE_TESSELLATION_EVALUATION_BIT, VK_SHADER_STAGE_GEOMETRY_BIT,
   VK_SHADER_STAGE_FRAGMENT_BIT]

/-- The fixed mesh chain array `meshStages` of `FindNextStage`. -/
def meshStagesList : List Nat :=
  [VK_SHADER_STAGE_TASK_BIT_EXT, VK_SHADER_STAGE_MESH_BIT_EXT,
   VK_SHADER_STAGE_FRAGMENT_BIT]

/-- The index-search loop of `FindNextStage`, unrolled: at each `i` it first
compares `graphicsStages[i]`, then (for `i < 3`) `meshStages[i]`, and stops at
the first hit.  `some (true, i)` is a hit in the graphics array at `i`,
`some (false, i)` a hit in the mesh array.  Note the loop finds
`VK_SHADER_STAGE_FRAGMENT_BIT` in the mesh array at index 2 (iteration `i = 2`)
before the graphics array's own fragment entry at index 4 is ever compared, so
fragment is classified into the mesh chain, at that chain's end. -/
def stagePos (stage : Nat) : Option (Bool × Nat) :=
  if stage = VK_SHADER_STAGE_VERTEX_BIT then some (true, 0)
  else if stage = VK_SHADER_STAGE_TASK_BIT_EXT then some (false, 0)
  else if stage = VK_SHADER_STAGE_TESSELLATION_CONTROL_BIT then some (true, 1)
  else if stage = VK_SHADER_STAGE_MESH_BIT_EXT then some (false, 1)
  else if stage = VK_SHADER_STAGE_TESSELLATION_EVALUATION_BIT then some (true, 2)
  else if stage = VK_SHADER_STAGE_FRAGMENT_BIT then some (false, 2)
  else if stage = VK_SHADER_STAGE_GEOMETRY_BIT then some (true, 3)
  else none

/-- The chain-walk loops of `FindNextStage`: scan the remaining chain entries
in order and return the first stage value some batch descriptor declares;
return 0 when the walk falls off the chain end. -/
def chainFindPresent (batch : List CreateInfo) (rest : List Nat) : Nat :=
  (rest.find? fun s => batch.any fun ci => ci.stage == s).getD 0

/-- `FindNextStage(createInfoCount, pCreateInfos, stage)`: locate `stage` in
the dual chain arrays, then walk forward from the position after it, returning
the first chain stage present among the batch's descriptors, or 0. -/
def findNextStage (batch : List CreateInfo) (stage : Nat) : Nat :=
  match stagePos stage with
  | some (true, gi) => chainFindPresent batch (graphicsStagesList.drop (gi + 1))
  | some (false, mi) => chainFindPresent batch (meshStagesList.drop (mi + 1))
  | none => 0

/-- Expected next stage as the specification words it (claim C4): walk the
descriptor's chain (graphics: vertex, tess-control, tess-eval, geometry,
fragment; mesh: task, mesh, fragment) forward from the descriptor's stage,
skipping stages not present among the batch's descriptors, until a present
stage is found (`some`) or the chain ends (`none`); `none` for stages outside
both chains.  This definition follows the spec text and is proved equivalent
to `findNextStage`, which follows the C++. -/
def specNextInOrderPresent (batch : List CreateInfo) (stage : Nat) : Option Nat :=
  if stage ∈ graphicsStagesList then
    ((graphicsStagesList.dropWhile fun s => s != stage).tail).find?
      fun s => batch.any fun ci => ci.stage == s
  else if stage ∈ meshStagesList then
    ((meshStagesList.dropWhile fun s => s != stage).tail).find?
      fun s => batch.any fun ci => ci.stage == s
  else none

/-! ## ValidateCreateShadersLinking (cc_shader_object.cpp lines 67-259)

The per-iteration `LogError` sites depend only on the loop's own descriptor
(plus the whole batch, for `FindNextStage` and the duplicate-stage scan), never
on the tracking variables, which are read only by the post-loop aggregate
checks; the translation therefore splits the loop into a per-descriptor
violation list and a tracking-state fold. -/

/-- Stage-capability chain (VUIDs 08419, 08420, 08421, 08422; lines 84-106). -/
def stageFeatureViol (f : Features) (i : Nat) (ci : CreateInfo) : List Violation :=
  if ci.stage = VK_SHADER_STAGE_TESSELLATION_CONTROL_BIT ∨
     ci.stage = VK_SHADER_STAGE_TESSELLATION_EVALUATION_BIT then
    vif (f.tessellationShader = false) ⟨.v08419, [i]⟩
  else if ci.stage = VK_SHADER_STAGE_GEOMETRY_BIT then
    vif (f.geometryShader = false) ⟨.v08420, [i]⟩
  else if ci.stage = VK_SHADER_STAGE_TASK_BIT_EXT then
    vif (f.taskShader = false) ⟨.v08421, [i]⟩
  else if ci.stage = VK_SHADER_STAGE_MESH_BIT_EXT then
    vif (f.meshShader = false) ⟨.v08422, [i]⟩
  else []

/-- Attachment-flag capability checks (VUIDs 08487, 08489; lines 108-119). -/
def attachFlagViol (f : Features) (i : Nat) (ci : CreateInfo) : List Violation :=
  vif (ci.flags &&& VK_SHADER_CREATE_FRAGMENT_SHADING_RATE_ATTACHMENT_BIT_EXT ≠ 0 ∧
       f.attachmentFragmentShadingRate = false) ⟨.v08487, [i]⟩ ++
  vif (ci.flags &&& VK_SHADER_CREATE_FRAGMENT_DENSITY_MAP_ATTACHMENT_BIT_EXT ≠ 0 ∧
       f.fragmentDensityMap = false) ⟨.v08489, [i]⟩

/-- Duplicate-stage scan for a linked descriptor at index `i` (VUID 08410;
lines 131-138): the inner loop runs `j` from `i` upward and reports each
`j ≠ i` whose stage equals descriptor `i`'s stage, so only pairs with `i < j`
are ever reported, and only from the iteration of the lower index `i`. -/
def dupViol (batch : List CreateInfo) (i : Nat) (ci : CreateInfo) : List Violation :=
  batch.enum.filterMap fun p =>
    if i < p.1 ∧ ci.stage = p.2.stage then some ⟨.v08410, [i, p.1]⟩ else none

/-- The `VK_SHADER_CREATE_LINK_STAGE_BIT_EXT` branch of the loop (VUIDs 08409
and 08410; lines 121-138): the next-stage walk check, then the duplicate scan.
The branch's tracking-variable assignments live in `trackStep`. -/
def linkBlockViol (batch : List CreateInfo) (i : Nat) (ci : CreateInfo) : List Violation :=
  if ci.flags &&& VK_SHADER_CREATE_LINK_STAGE_BIT_EXT ≠ 0 then
    vif (findNextStage batch ci.stage ≠ 0 ∧ ci.nextStage ≠ findNextStage batch ci.stage)
      ⟨.v08409, [i]⟩ ++
    dupViol batch i ci
  else []

/-- Per-descriptor `nextStage` checks (VUIDs 08428-08436; lines 165-208). -/
def nextStageSanityViol (f : Features) (i : Nat) (ci : CreateInfo) : List Violation :=
  vif (f.tessellationShader = false ∧
       (ci.nextStage = VK_SHADER_STAGE_TESSELLATION_CONTROL_BIT ∨
        ci.nextStage = VK_SHADER_STAGE_TESSELLATION_EVALUATION_BIT)) ⟨.v08428, [i]⟩ ++
  vif (f.geometryShader = false ∧ ci.nextStage = VK_SHADER_STAGE_GEOMETRY_BIT)
    ⟨.v08429, [i]⟩ ++
  vif (ci.stage = VK_SHADER_STAGE_TESSELLATION_CONTROL_BIT ∧
       ci.nextStage &&& (kU32AllOnes ^^^ VK_SHADER_STAGE_TESSELLATION_EVALUATION_BIT) > 0)
    ⟨.v08430, [i]⟩ ++
  vif (ci.stage = VK_SHADER_STAGE_TESSELLATION_EVALUATION_BIT ∧
       ci.nextStage &&&
         (kU32AllOnes ^^^ (VK_SHADER_STAGE_GEOMETRY_BIT ||| VK_SHADER_STAGE_FRAGMENT_BIT)) > 0)
    ⟨.v08431, [i]⟩ ++
  vif (ci.stage = VK_SHADER_STAGE_GEOMETRY_BIT ∧
       ci.nextStage &&& (kU32AllOnes ^^^ VK_SHADER_STAGE_FRAGMENT_BIT) > 0) ⟨.v08433, [i]⟩ ++
  vif ((ci.stage = VK_SHADER_STAGE_FRAGMENT_BIT ∨ ci.stage = VK_SHADER_STAGE_COMPUTE_BIT) ∧
       ci.nextStage > 0) ⟨.v08434, [i]⟩ ++
  vif (ci.stage = VK_SHADER_STAGE_TASK_BIT_EXT ∧
       ci.nextStage &&& (kU32AllOnes ^^^ VK_SHADER_STAGE_MESH_BIT_EXT) > 0) ⟨.v08435, [i]⟩ ++
  vif (ci.stage = VK_SHADER_STAGE_MESH_BIT_EXT ∧
       ci.nextStage &&& (kU32AllOnes ^^^ VK_SHADER_STAGE_FRAGMENT_BIT) > 0) ⟨.v08436, [i]⟩

/-- Subgroup-size flag capability checks (VUIDs 09404, 09405; lines 210-221). -/
def subgroupFlagViol (f : Features) (i : Nat) (ci : CreateInfo) : List Violation :=
  vif (ci.flags &&& VK_SHADER_CREATE_ALLOW_VARYING_SUBGROUP_SIZE_BIT_EXT ≠ 0 ∧
       f.subgroupSizeControl = false) ⟨.v09404, [i]⟩ ++
  vif (ci.flags &&& VK_SHADER_CREATE_REQUIRE_FULL_SUBGROUPS_BIT_EXT ≠ 0 ∧
       f.computeFullSubgroups = false) ⟨.v09405, [i]⟩

/-- All `LogError` sites of one loop iteration of
`ValidateCreateShadersLinking`, in source order. -/
def perDescLinkViol (f : Features) (batch : List CreateInfo) (i : Nat) (ci : CreateInfo) :
    List Violation :=
  stageFeatureViol f i ci ++ attachFlagViol f i ci ++ linkBlockViol batch i ci ++
  nextStageSanityViol f i ci ++ subgroupFlagViol f i ci

/-- The tracking variables of `ValidateCreateShadersLinking` (lines 72-80);
`none` models the `invalid` sentinel. -/
structure LinkTrack where
  linked_stage : Option Nat
  non_linked_graphics_stage : Option Nat
  non_linked_task_mesh_stage : Option Nat
  linked_task_mesh_stage : Option Nat
  linked_vert_stage : Option Nat
  linked_task_stage : Option Nat
  linked_mesh_no_task_stage : Option Nat
  linked_spirv_index : Option Nat
  linked_binary_index : Option Nat
deriving DecidableEq, Repr

/-- Initial tracking state: every index at the `invalid` sentinel. -/
def initLinkTrack : LinkTrack :=
  ⟨none, none, none, none, none, none, none, none, none⟩

/-- One loop iteration's tracking-variable assignments (lines 140-163): the
linked branch records the linked / vertex / task / mesh / code-type indices,
the two else-if branches record the non-linked graphics or task-mesh index. -/
def trackStep (st : LinkTrack) (p : Nat × CreateInfo) : LinkTrack :=
  let i := p.1
  let ci := p.2
  if ci.flags &&& VK_SHADER_CREATE_LINK_STAGE_BIT_EXT ≠ 0 then
    let st1 := { st with linked_stage := some i }
    let st2 :=
      if ci.stage &&& VK_SHADER_STAGE_VERTEX_BIT ≠ 0 then
        { st1 with linked_vert_stage := some i }
      else if ci.stage &&& VK_SHADER_STAGE_TASK_BIT_EXT ≠ 0 then
        { st1 with linked_task_mesh_stage := some i, linked_task_stage := some i }
      else if ci.stage &&& VK_SHADER_STAGE_MESH_BIT_EXT ≠ 0 then
        let st3 := { st1 with linked_task_mesh_stage := some i }
        if ci.flags &&& VK_SHADER_CREATE_NO_TASK_SHADER_BIT_EXT ≠ 0 then
          { st3 with linked_mesh_no_task_stage := some i }
        else st3
      else st1
    if ci.codeType = .spirv then { st2 with linked_spirv_index := some i }
    else if ci.codeType = .binary then { st2 with linked_binary_index := some i }
    else st2
  else if ci.stage &&& (VK_SHADER_STAGE_VERTEX_BIT ||| VK_SHADER_STAGE_TESSELLATION_CONTROL_BIT |||
                        VK_SHADER_STAGE_TESSELLATION_EVALUATION_BIT ||| VK_SHADER_STAGE_GEOMETRY_BIT |||
                        VK_SHADER_STAGE_FRAGMENT_BIT) ≠ 0 then
    { st with non_linked_graphics_stage := some i }
  else if ci.stage &&& (VK_SHADER_STAGE_TASK_BIT_EXT ||| VK_SHADER_STAGE_MESH_BIT_EXT) ≠ 0 then
    { st with non_linked_task_mesh_stage := some i }
  else st

/-- The post-loop aggregate checks (VUIDs 08402, 08403, 08404, 08405, 08411;
lines 224-256), each firing when its two tracked indices are both set. -/
def aggrViol (t : LinkTrack) : List Violation :=
  vpair t.linked_stage t.non_linked_graphics_stage .v08402 ++
  vpair t.linked_stage t.non_linked_task_mesh_stage .v08403 ++
  vpair t.linked_vert_stage t.linked_task_mesh_stage .v08404 ++
  vpair t.linked_task_stage t.linked_mesh_no_task_stage .v08405 ++
  vpair t.linked_spirv_index t.linked_binary_index .v08411

/-- `CoreChecks::ValidateCreateShadersLinking`: the per-descriptor loop's
violations in order, followed by the aggregate checks on the final tracking
state. -/
def validateCreateShadersLinking (f : Features) (batch : List CreateInfo) : List Violation :=
  (batch.enum.flatMap fun p => perDescLinkViol f batch p.1 p.2) ++
  aggrViol (batch.enum.foldl trackStep initLinkTrack)

/-- Violation reporting modelled as an append-only diagnostics log (spec §6):
one validation call appends its violation list to the log and touches nothing
else, which is all the state the `const` C++ method can reach. -/
def runCreationValidationLog (f : Features) (batch : List CreateInfo)
    (log : List Violation) : List Violation :=
  log ++ validateCreateShadersLinking f batch

/-! ## Tessellation checks of PreCallValidateCreateShadersEXT
(cc_shader_object.cpp lines 273-367)

The SPIR-V binary validation and the general per-stage shader validation the
loop also performs (`RunSpirvValidation`, `ValidatePipelineShaderStage`) are
external collaborators (spec §1, §6) and are outside this core; the embedding
covers the tessellation emissions of the loop and the four cross-stage checks
after it.  As in the linking validator, the loop's emissions depend only on
the iteration's own descriptor while the `tesc_linked_* / tese_linked_*`
accumulators are read only after the loop, so the translation is a
per-descriptor list plus an accumulator fold. -/

/-- Tessellation emissions of one loop iteration (VUIDs 08872, 08873, 08874 on
a tess-eval descriptor, VUID 08453 on either tessellation stage; guarded on
SPIR-V code type and a present entry point, lines 288-327). -/
def tessDescViol (maxTessellationPatchSize : Nat) (i : Nat) (ci : CreateInfo) : List Violation :=
  if ci.codeType = .spirv then
    match ci.entryPoint with
    | some em =>
      if ci.stage = VK_SHADER_STAGE_TESSELLATION_CONTROL_BIT ∨
         ci.stage = VK_SHADER_STAGE_TESSELLATION_EVALUATION_BIT then
        (if ci.stage = VK_SHADER_STAGE_TESSELLATION_EVALUATION_BIT then
          vif (em.tessellation_subdivision = 0) ⟨.v08872, [i]⟩ ++
          vif (em.tessellation_orientation = 0) ⟨.v08873, [i]⟩ ++
          vif (em.tessellation_spacing = 0) ⟨.v08874, [i]⟩
        else []) ++
        vif (em.output_vertices ≠ kU32Max ∧
             (em.output_vertices = 0 ∨ em.output_vertices > maxTessellationPatchSize))
          ⟨.v08453, [i]⟩
      else []
    | none => []
  else []

/-- The `tesc_linked_* / tese_linked_*` accumulators (lines 273-280). -/
structure TessAccum where
  tesc_linked_subdivision : Nat
  tese_linked_subdivision : Nat
  tesc_linked_orientation : Nat
  tese_linked_orientation : Nat
  tesc_linked_point_mode : Bool
  tese_linked_point_mode : Bool
  tesc_linked_spacing : Nat
  tese_linked_spacing : Nat
deriving DecidableEq, Repr

/-- Accumulators start at zero / false. -/
def initTessAccum : TessAccum := ⟨0, 0, 0, 0, false, false, 0, 0⟩

/-- Accumulator update of one loop iteration (lines 329-341): a linked SPIR-V
tessellation descriptor with an entry point overwrites its stage's fields. -/
def tessAccumStep (a : TessAccum) (ci : CreateInfo) : TessAccum :=
  if ci.codeType = .spirv then
    match ci.entryPoint with
    | some em =>
      if ci.stage = VK_SHADER_STAGE_TESSELLATION_CONTROL_BIT ∨
         ci.stage = VK_SHADER_STAGE_TESSELLATION_EVALUATION_BIT then
        if ci.flags &&& VK_SHADER_CREATE_LINK_STAGE_BIT_EXT ≠ 0 then
          if ci.stage = VK_SHADER_STAGE_TESSELLATION_CONTROL_BIT then
            { a with tesc_linked_subdivision := em.tessellation_subdivision
                     tesc_linked_orientation := em.tessellation_orientation
                     tesc_linked_point_mode := em.pointMode
                     tesc_linked_spacing := em.tessellation_spacing }
          else if ci.stage = VK_SHADER_STAGE_TESSELLATION_EVALUATION_BIT then
            { a with tese_linked_subdivision := em.tessellation_subdivision
                     tese_linked_orientation := em.tessellation_orientation
                     tese_linked_point_mode := em.pointMode
                     tese_linked_spacing := em.tessellation_spacing }
          else a
        else a
      else a
    | none => a
  else a

/-- The four cross-stage checks after the loop (VUIDs 08867, 08868, 08869,
08870; lines 345-367). -/
def crossStageViol (a : TessAccum) : List Violation :=
  vif (a.tesc_linked_subdivision ≠ 0 ∧ a.tese_linked_subdivision ≠ 0 ∧
       a.tesc_linked_subdivision ≠ a.tese_linked_subdivision) ⟨.v08867, []⟩ ++
  vif (a.tesc_linked_orientation ≠ 0 ∧ a.tese_linked_orientation ≠ 0 ∧
       a.tesc_linked_orientation ≠ a.tese_linked_orientation) ⟨.v08868, []⟩ ++
  vif (a.tesc_linked_point_mode = true ∧ a.tese_linked_point_mode = false) ⟨.v08869, []⟩ ++
  vif (a.tesc_linked_spacing ≠ 0 ∧ a.tese_linked_spacing ≠ 0 ∧
       a.tesc_linked_spacing ≠ a.tese_linked_spacing) ⟨.v08870, []⟩

/-- Tessellation portion of `CoreChecks::PreCallValidateCreateShadersEXT`:
per-descriptor emissions in loop order, then the cross-stage checks on the
final accumulator state. -/
def preCallCreateShadersTessChecks (maxTessellationPatchSize : Nat)
    (batch : List CreateInfo) : List Violation :=
  (batch.enum.flatMap fun p => tessDescViol maxTessellationPatchSize p.1 p.2) ++
  crossStageViol (batch.foldl tessAccumStep initTessAccum)

/-! ## PreCallValidateCmdBindShadersEXT (cc_shader_object.cpp lines 389-519) -/

/-- Persistent shader-object record fields the bind and draw validators read
(`vvl::ShaderObject::create_info`). -/
structure ShaderInfo where
  stage : Nat
  flags : Nat
deriving DecidableEq, Repr

/-- One `(pStages[i], pShaders[i])` pair of a bind call; handle value 0 models
`VK_NULL_HANDLE`. -/
structure BindEntry where
  stage : Nat
  shader : Nat
deriving DecidableEq, Repr

/-- Stage-tracking variables of the bind loop (lines 401-403); `none` models
the `stageCount` sentinel. -/
structure BindTrack where
  vertexStageIndex : Option Nat
  taskStageIndex : Option Nat
  meshStageIndex : Option Nat
deriving DecidableEq, Repr

/-- Initial bind tracking state. -/
def initBindTrack : BindTrack := ⟨none, none, none⟩

/-- Index assignments of one bind-loop iteration: the first three branches of
the chained conditional (lines 416-421) record the last vertex / task / mesh
entry bound with a non-null shader. -/
def bindTrackStep (st : BindTrack) (p : Nat × BindEntry) : BindTrack :=
  let i := p.1
  let e := p.2
  if e.stage = VK_SHADER_STAGE_VERTEX_BIT ∧ e.shader ≠ 0 then
    { st with vertexStageIndex := some i }
  else if e.stage = VK_SHADER_STAGE_TASK_BIT_EXT ∧ e.shader ≠ 0 then
    { st with taskStageIndex := some i }
  else if e.stage = VK_SHADER_STAGE_MESH_BIT_EXT ∧ e.shader ≠ 0 then
    { st with meshStageIndex := some i }
  else st

/-- All `LogError` sites of one bind-loop iteration in source order: the
duplicate-stage scan (08463), the emitting branches of the chained conditional
(08474, 08475, 08476), the independent checks (08477, 08478, 08490 / 08491,
08464, 08465, 08467, 08468), and the created-stage match against the handle
table (08469).  `queueFlags` is the owning command pool's queue capability
word; `resolve` is the object-lifetime table's handle lookup (external
collaborator, spec §6). -/
def bindDescViol (f : Features) (queueFlags : Nat) (resolve : Nat → Option ShaderInfo)
    (pairs : List BindEntry) (i : Nat) (e : BindEntry) : List Violation :=
  (pairs.enum.filterMap fun q =>
    if i < q.1 ∧ e.stage = q.2.stage then some ⟨.v08463, [i, q.1]⟩ else none) ++
  (if e.stage = VK_SHADER_STAGE_VERTEX_BIT ∧ e.shader ≠ 0 then []
   else if e.stage = VK_SHADER_STAGE_TASK_BIT_EXT ∧ e.shader ≠ 0 then []
   else if e.stage = VK_SHADER_STAGE_MESH_BIT_EXT ∧ e.shader ≠ 0 then []
   else if f.tessellationShader = false ∧
           (e.stage = VK_SHADER_STAGE_TESSELLATION_CONTROL_BIT ∨
            e.stage = VK_SHADER_STAGE_TESSELLATION_EVALUATION_BIT) ∧ e.shader ≠ 0 then
     [⟨.v08474, [i]⟩]
   else if f.geometryShader = false ∧ e.stage = VK_SHADER_STAGE_GEOMETRY_BIT ∧
           e.shader ≠ 0 then
     [⟨.v08475, [i]⟩]
   else if e.stage = VK_SHADER_STAGE_COMPUTE_BIT then
     vif (queueFlags &&& VK_QUEUE_COMPUTE_BIT = 0) ⟨.v08476, [i]⟩
   else []) ++
  vif (e.stage &&& (VK_SHADER_STAGE_VERTEX_BIT ||| VK_SHADER_STAGE_TESSELLATION_CONTROL_BIT |||
                    VK_SHADER_STAGE_TESSELLATION_EVALUATION_BIT ||| VK_SHADER_STAGE_GEOMETRY_BIT |||
                    VK_SHADER_STAGE_FRAGMENT_BIT) > 0 ∧
       queueFlags &&& VK_QUEUE_GRAPHICS_BIT = 0) ⟨.v08477, [i]⟩ ++
  vif (e.stage &&& (VK_SHADER_STAGE_MESH_BIT_EXT ||| VK_SHADER_STAGE_TASK_BIT_EXT) > 0 ∧
       queueFlags &&& VK_QUEUE_GRAPHICS_BIT = 0) ⟨.v08478, [i]⟩ ++
  (if e.stage = VK_SHADER_STAGE_TASK_BIT_EXT ∧ f.taskShader = false ∧ e.shader ≠ 0 then
     [⟨.v08490, [i]⟩]
   else if e.stage = VK_SHADER_STAGE_MESH_BIT_EXT ∧ f.meshShader = false ∧ e.shader ≠ 0 then
     [⟨.v08491, [i]⟩]
   else []) ++
  vif (e.stage = VK_SHADER_STAGE_ALL_GRAPHICS ∨ e.stage = VK_SHADER_STAGE_ALL)
    ⟨.v08464, [i]⟩ ++
  vif (e.stage &&& kShaderStageAllRayTracing ≠ 0) ⟨.v08465, [i]⟩ ++
  vif (e.stage = VK_SHADER_STAGE_SUBPASS_SHADING_BIT_HUAWEI) ⟨.v08467, [i]⟩ ++
  vif (e.stage = VK_SHADER_STAGE_CLUSTER_CULLING_BIT_HUAWEI) ⟨.v08468, [i]⟩ ++
  (if e.shader ≠ 0 then
    match resolve e.shader with
    | some srec => vif (srec.stage ≠ e.stage) ⟨.v08469, [i]⟩
    | none => []
   else [])

/-- `CoreChecks::PreCallValidateCmdBindShadersEXT`: the shader-object feature
check, each loop iteration's violations, then the two post-loop mutual
exclusions — vertex with task both bound non-null (08470), vertex with mesh
both bound non-null (08471). -/
def preCallValidateCmdBindShadersEXT (f : Features) (queueFlags : Nat)
    (resolve : Nat → Option ShaderInfo) (pairs : List BindEntry) : List Violation :=
  vif (f.shaderObject = false) ⟨.v08462, []⟩ ++
  (pairs.enum.flatMap fun p => bindDescViol f queueFlags resolve pairs p.1 p.2) ++
  (let t := pairs.enum.foldl bindTrackStep initBindTrack
   vpair t.vertexStageIndex t.taskStageIndex .v08470 ++
   vpair t.vertexStageIndex t.meshStageIndex .v08471)

/-! ## Draw-time validators (cc_shader_object.cpp lines 533-789) -/

/-- Modelled from the spec: a `BindingSlot` of the command buffer's execution
state holds `Unbound`, `ExplicitNull` (bound with no shader), or a reference
to a bound shader object (spec §3, BindingSlot).  The slot store itself
(`LastBound`) lives in the state-tracker collaborator, outside the excerpted
sources. -/
inductive BindingSlot where
  | unbound
  | explicitNull
  | shaderBound (shader : ShaderInfo)
deriving DecidableEq, Repr

/-- Modelled from the spec: `LastBound::IsValidShaderOrNullBound` — a stage
slot is acceptable at draw time when it is `ExplicitNull` or `ShaderBound`,
never when left at bare `Unbound` (spec §4.5). -/
def isValidShaderOrNullBound : BindingSlot → Bool
  | .unbound => false
  | _ => true

/-- The per-stage graphics binding slots a draw-time check reads. -/
structure LastBoundSlots where
  vertex : BindingSlot
  tessControl : BindingSlot
  tessEval : BindingSlot
  geometry : BindingSlot
  fragment : BindingSlot
  task : BindingSlot
  mesh : BindingSlot
deriving DecidableEq, Repr

/-- `VkPipelineBindPoint` values the draw-time checks distinguish. -/
inductive BindPoint where
  | graphics
  | compute
  | rayTracing
deriving DecidableEq, Repr

/-- `CoreChecks::ValidateShaderObjectBoundShader` (lines 533-590):
`validCombination` models the state tracker's
`ValidShaderObjectCombination(bind_point, enabled_features)` verdict (external
state-tracker collaborator); for the graphics bind point each
capability-enabled mandatory stage must have a valid-or-null binding. -/
def validateShaderObjectBoundShader (f : Features) (validCombination : Bool)
    (bindPoint : BindPoint) (lb : LastBoundSlots) : List Violation :=
  vif (validCombination = false) ⟨.v08607, []⟩ ++
  (if bindPoint = .graphics then
    vif (isValidShaderOrNullBound lb.vertex = false) ⟨.v08684, []⟩ ++
    vif (f.tessellationShader = true ∧ isValidShaderOrNullBound lb.tessControl = false)
      ⟨.v08685, []⟩ ++
    vif (f.tessellationShader = true ∧ isValidShaderOrNullBound lb.tessEval = false)
      ⟨.v08686, []⟩ ++
    vif (f.geometryShader = true ∧ isValidShaderOrNullBound lb.geometry = false)
      ⟨.v08687, []⟩ ++
    vif (isValidShaderOrNullBound lb.fragment = false) ⟨.v08688, []⟩ ++
    vif (f.taskShader = true ∧ isValidShaderOrNullBound lb.task = false) ⟨.v08689, []⟩ ++
    vif (f.meshShader = true ∧ isValidShaderOrNullBound lb.mesh = false) ⟨.v08690, []⟩
  else [])

/-- Draw-time view of the vertex / task / mesh stage slots of `LastBound`:
`some s` models `GetShader(stage) != VK_NULL_HANDLE` with `GetShaderState`
record `s`; `none` models no shader bound at the slot (modelled from the spec's
BindingSlot store, §3, as the state tracker is outside the excerpted
sources). -/
structure DrawBound where
  vertexShader : Option ShaderInfo
  taskShader : Option ShaderInfo
  meshShader : Option ShaderInfo
deriving DecidableEq, Repr

/-- The task / mesh `NO_TASK_SHADER` consistency block of
`CoreChecks::ValidateDrawShaderObject` (lines 614-631): gated on both the
taskShader and meshShader capabilities; a bound mesh shader created without
`VK_SHADER_CREATE_NO_TASK_SHADER_BIT_EXT` and no bound task shader raises
08694, else a bound mesh shader created with the flag and a bound task shader
raises 08695. -/
def validateDrawMeshTaskFlags (f : Features) (lb : DrawBound) : List Violation :=
  if f.taskShader = true ∧ f.meshShader = true then
    match lb.meshShader with
    | some m =>
      if m.flags &&& VK_SHADER_CREATE_NO_TASK_SHADER_BIT_EXT = 0 ∧ lb.taskShader = none then
        [⟨.v08694, []⟩]
      else if m.flags &&& VK_SHADER_CREATE_NO_TASK_SHADER_BIT_EXT ≠ 0 ∧
              lb.taskShader ≠ none then
        [⟨.v08695, []⟩]
      else []
    | none => []
  else []

/-- Draw and mesh-dispatch entry points whose VUID table reaches
`ValidateDrawShaderObjectMesh` (`vuid.function` values the `IsValueIn` test
distinguishes; non-mesh draw commands represented by their own
constructors). -/
inductive Func where
  | vkCmdDraw
  | vkCmdDrawIndexed
  | vkCmdDrawIndirect
  | vkCmdDrawMeshTasksNV
  | vkCmdDrawMeshTasksIndirectNV
  | vkCmdDrawMeshTasksIndirectCountNV
  | vkCmdDrawMeshTasksEXT
  | vkCmdDrawMeshTasksIndirectEXT
  | vkCmdDrawMeshTasksIndirectCountEXT
deriving DecidableEq, Repr

/-- The six mesh-dispatch functions excluded by the early return of
`ValidateDrawShaderObjectMesh` (lines 767-771). -/
def meshTasksFuncList : List Func :=
  [.vkCmdDrawMeshTasksNV, .vkCmdDrawMeshTasksIndirectNV, .vkCmdDrawMeshTasksIndirectCountNV,
   .vkCmdDrawMeshTasksEXT, .vkCmdDrawMeshTasksIndirectEXT, .vkCmdDrawMeshTasksIndirectCountEXT]

/-- A violation whose formatted message text matters: VUID plus the exact
message string the stringstream builds. -/
structure MsgViolation where
  vuid : Vuid
  msg : String
deriving DecidableEq, Repr

/-- `CoreChecks::ValidateDrawShaderObjectMesh` (lines 765-789): for a plain
(non-mesh-dispatch) draw, any bound task or mesh shader raises one 08885
violation; the message branches read `if (task && mesh) ... else if (mesh)
"Task shader is bound." else "Mesh shader is bound."` exactly as in the
source. -/
def validateDrawShaderObjectMesh (func : Func) (lb : DrawBound) : List MsgViolation :=
  if func ∈ meshTasksFuncList then []
  else
    let task_shader := lb.taskShader.isSome
    let mesh_shader := lb.meshShader.isSome
    if task_shader || mesh_shader then
      [⟨.v08885,
        if task_shader && mesh_shader then "Task and mesh shaders are bound."
        else if mesh_shader then "Task shader is bound."
        else "Mesh shader is bound."⟩]
    else []

/-! ## Generic lemmas about the emission shapes -/

theorem mem_vif {α : Type} {c : Prop} [Decidable c] {v x : α} :
    x ∈ vif c v ↔ c ∧ x = v := by
  by_cases h : c <;> simp [vif, h]

theorem countP_vif {α : Type} {c : Prop} [Decidable c] (v : α) (p : α → Bool) :
    (vif c v).countP p = if c then (if p v then 1 else 0) else 0 := by
  by_cases h : c <;> simp [vif, h, List.countP_cons]

theorem mem_vpair {x : Violation} {a b : Option Nat} {u : Vuid} :
    x ∈ vpair a b u ↔ ∃ i j, a = some i ∧ b = some j ∧ x = ⟨u, [i, j]⟩ := by
  cases a <;> cases b <;> simp [vpair]

theorem countP_vpair (a b : Option Nat) (u : Vuid) (p : Violation → Bool) :
    (vpair a b u).countP p =
      match a, b with
      | some i, some j => if p ⟨u, [i, j]⟩ then 1 else 0
      | _, _ => 0 := by
  cases a <;> cases b <;> simp [vpair, List.countP_cons]

theorem countP_flatMap {α β : Type} (l : List α) (g : α → List β) (p : β → Bool) :
    (l.flatMap g).countP p = (l.map fun a => (g a).countP p).sum := by
  induction l with
  | nil => simp
  | cons a l ih => simp [List.flatMap_cons, List.countP_append, ih]

theorem countP_filterMap {α β : Type} (l : List α) (g : α → Option β) (p : β → Bool) :
    (l.filterMap g).countP p = l.countP fun a => ((g a).map p).getD false := by
  induction l with
  | nil => simp
  | cons a l ih =>
    cases h : g a <;>
      simp [List.filterMap_cons, h, List.countP_cons, ih, Nat.add_comm]

theorem mem_enum_iff {α : Type} {l : List α} {i : Nat} {x : α} :
    (i, x) ∈ l.enum ↔ l[i]? = some x := by
  simpa using List.mk_mem_enum_iff_getElem? (l := l) (i := i) (x := x)

theorem countP_enumFrom_idx {α : Type} (p : α → Bool) (j : Nat) :
    ∀ (l : List α) (n : Nat),
      (l.enumFrom n).countP (fun q => decide (q.1 = j) && p q.2) =
        if n ≤ j then (l[j - n]?).elim 0 (fun c => if p c then 1 else 0) else 0 := by
  intro l
  induction l with
  | nil => intro n; simp
  | cons a l ih =>
    intro n
    rw [show (a :: l).enumFrom n = (n, a) :: l.enumFrom (n + 1) from rfl]
    rw [List.countP_cons, ih (n + 1)]
    by_cases hnj : n = j
    · subst hnj
      have h0 : ¬(n + 1 ≤ n) := by omega
      simp [h0, Nat.sub_self]
    · have h1 : (decide (n = j) && p a) = false := by simp [hnj]
      rw [h1]
      by_cases hle : n ≤ j
      · have h2 : n + 1 ≤ j := by omega
        have hidx : (a :: l)[j - n]? = l[j - (n + 1)]? := by
          have h3 : j - n = (j - (n + 1)) + 1 := by omega
          rw [h3]
          simp
        rw [if_pos h2, if_pos hle, hidx]
        simp
      · have h2 : ¬(n + 1 ≤ j) := by omega
        rw [if_neg h2, if_neg hle]
        simp

theorem sum_map_enumFrom_idx {α : Type} (F : α → Nat) (j : Nat) :
    ∀ (l : List α) (n : Nat),
      ((l.enumFrom n).map (fun q => if q.1 = j then F q.2 else 0)).sum =
        if n ≤ j then (l[j - n]?).elim 0 F else 0 := by
  intro l
  induction l with
  | nil => intro n; simp
  | cons a l ih =>
    intro n
    rw [show (a :: l).enumFrom n = (n, a) :: l.enumFrom (n + 1) from rfl]
    rw [List.map_cons, List.sum_cons, ih (n + 1)]
    by_cases hnj : n = j
    · subst hnj
      have h0 : ¬(n + 1 ≤ n) := by omega
      simp [h0, Nat.sub_self]
    · rw [if_neg hnj]
      by_cases hle : n ≤ j
      · have h1 : n + 1 ≤ j := by omega
        have hidx : (a :: l)[j - n]? = l[j - (n + 1)]? := by
          have h2 : j - n = (j - (n + 1)) + 1 := by omega
          rw [h2]
          simp
        rw [if_pos h1, if_pos hle, hidx]
        simp
      · have h1 : ¬(n + 1 ≤ j) := by omega
        rw [if_neg h1, if_neg hle]

/-! ## Classification lemmas: which VUIDs each emission block can produce -/

theorem mem_stageFeatureViol {f : Features} {i : Nat} {ci : CreateInfo} {v : Violation}
    (h : v ∈ stageFeatureViol f i ci) :
    v.args = [i] ∧ (v.vuid = .v08419 ∨ v.vuid = .v08420 ∨ v.vuid = .v08421 ∨ v.vuid = .v08422) := by
  unfold stageFeatureViol at h
  split_ifs at h <;>
    first
      | exact absurd h (List.not_mem_nil v)
      | (obtain ⟨-, rfl⟩ := mem_vif.1 h; simp)

theorem mem_attachFlagViol {f : Features} {i : Nat} {ci : CreateInfo} {v : Violation}
    (h : v ∈ attachFlagViol f i ci) :
    v.args = [i] ∧ (v.vuid = .v08487 ∨ v.vuid = .v08489) := by
  unfold attachFlagViol at h
  rcases List.mem_append.1 h with h | h <;> (obtain ⟨-, rfl⟩ := mem_vif.1 h; simp)

theorem mem_nextStageSanityViol {f : Features} {i : Nat} {ci : CreateInfo} {v : Violation}
    (h : v ∈ nextStageSanityViol f i ci) :
    v.args = [i] ∧ (v.vuid = .v08428 ∨ v.vuid = .v08429 ∨ v.vuid = .v08430 ∨ v.vuid = .v08431 ∨
      v.vuid = .v08433 ∨ v.vuid = .v08434 ∨ v.vuid = .v08435 ∨ v.vuid = .v08436) := by
  unfold nextStageSanityViol at h
  simp only [List.mem_append] at h
  rcases h with ((((((h | h) | h) | h) | h) | h) | h) | h <;>
    (obtain ⟨-, rfl⟩ := mem_vif.1 h; simp)

theorem mem_subgroupFlagViol {f : Features} {i : Nat} {ci : CreateInfo} {v : Violation}
    (h : v ∈ subgroupFlagViol f i ci) :
    v.args = [i] ∧ (v.vuid = .v09404 ∨ v.vuid = .v09405) := by
  unfold subgroupFlagViol at h
  rcases List.mem_append.1 h with h | h <;> (obtain ⟨-, rfl⟩ := mem_vif.1 h; simp)

theorem mem_aggrViol {t : LinkTrack} {v : Violation} (h : v ∈ aggrViol t) :
    v.vuid = .v08402 ∨ v.vuid = .v08403 ∨ v.vuid = .v08404 ∨ v.vuid = .v08405 ∨
      v.vuid = .v08411 := by
  unfold aggrViol at h
  simp only [List.mem_append] at h
  rcases h with (((h | h) | h) | h) | h <;>
    (obtain ⟨a, b, -, -, rfl⟩ := mem_vpair.1 h; simp)

theorem mem_dupViol {batch : List CreateInfo} {i : Nat} {ci : CreateInfo} {v : Violation} :
    v ∈ dupViol batch i ci ↔
      ∃ j cj, batch[j]? = some cj ∧ i < j ∧ ci.stage = cj.stage ∧ v = ⟨.v08410, [i, j]⟩ := by
  unfold dupViol
  rw [List.mem_filterMap]
  constructor
  · rintro ⟨⟨j, cj⟩, hmem, heq⟩
    split at heq
    · next hc =>
      exact ⟨j, cj, mem_enum_iff.1 hmem, hc.1, hc.2, (Option.some.inj heq).symm⟩
    · exact absurd heq (by simp)
  · rintro ⟨j, cj, hj, hij, hst, rfl⟩
    exact ⟨(j, cj), mem_enum_iff.2 hj, by rw [if_pos ⟨hij, hst⟩]⟩

/-! ## Characterization of the 08409 (next-stage walk) violation -/

theorem mem_perDesc_409 {f : Features} {batch : List CreateInfo} {k i : Nat}
    {ck : CreateInfo} :
    (⟨.v08409, [i]⟩ : Violation) ∈ perDescLinkViol f batch k ck ↔
      k = i ∧ ck.flags &&& VK_SHADER_CREATE_LINK_STAGE_BIT_EXT ≠ 0 ∧
        findNextStage batch ck.stage ≠ 0 ∧ ck.nextStage ≠ findNextStage batch ck.stage := by
  constructor
  · intro h
    unfold perDescLinkViol at h
    simp only [List.mem_append] at h
    rcases h with (((h | h) | h) | h) | h
    · obtain ⟨-, h2⟩ := mem_stageFeatureViol h
      rcases h2 with h2 | h2 | h2 | h2 <;> simp at h2
    · obtain ⟨-, h2⟩ := mem_attachFlagViol h
      rcases h2 with h2 | h2 <;> simp at h2
    · unfold linkBlockViol at h
      split_ifs at h with hl
      · rcases List.mem_append.1 h with h | h
        · obtain ⟨hc, heq⟩ := mem_vif.1 h
          have hk : k = i := by
            have := congrArg Violation.args heq
            simpa using this.symm
          exact ⟨hk, hl, hc.1, hc.2⟩
        · obtain ⟨j, cj, -, -, -, heq⟩ := mem_dupViol.1 h
          have h3 := congrArg Violation.vuid heq
          simp at h3
      · exact absurd h (List.not_mem_nil _)
    · obtain ⟨-, h2⟩ := mem_nextStageSanityViol h
      rcases h2 with h2 | h2 | h2 | h2 | h2 | h2 | h2 | h2 <;> simp at h2
    · obtain ⟨-, h2⟩ := mem_subgroupFlagViol h
      rcases h2 with h2 | h2 <;> simp at h2
  · rintro ⟨rfl, hl, h1, h2⟩
    unfold perDescLinkViol
    simp only [List.mem_append]
    refine Or.inl (Or.inl (Or.inr ?_))
    unfold linkBlockViol
    rw [if_pos hl]
    exact List.mem_append_left _ (mem_vif.2 ⟨⟨h1, h2⟩, rfl⟩)

theorem mem_validate_409_iff (f : Features) (batch : List CreateInfo) (i : Nat) :
    (⟨.v08409, [i]⟩ : Violation) ∈ validateCreateShadersLinking f batch ↔
      ∃ ci, batch[i]? = some ci ∧ ci.flags &&& VK_SHADER_CREATE_LINK_STAGE_BIT_EXT ≠ 0 ∧
        findNextStage batch ci.stage ≠ 0 ∧ ci.nextStage ≠ findNextStage batch ci.stage := by
  unfold validateCreateShadersLinking
  rw [List.mem_append, List.mem_flatMap]
  constructor
  · rintro (⟨⟨k, ck⟩, hmem, hper⟩ | hagg)
    · obtain ⟨rfl, hl, h1, h2⟩ := mem_perDesc_409.1 hper
      exact ⟨ck, mem_enum_iff.1 hmem, hl, h1, h2⟩
    · rcases mem_aggrViol hagg with h | h | h | h | h <;> simp at h
  · rintro ⟨ci, hi, hl, h1, h2⟩
    exact Or.inl ⟨(i, ci), mem_enum_iff.2 hi, mem_perDesc_409.2 ⟨rfl, hl, h1, h2⟩⟩

/-! ## Characterization of the 08410 (duplicate stage among linked) violation -/

theorem mem_perDesc_410 {f : Features} {batch : List CreateInfo} {k a b : Nat}
    {ck : CreateInfo} :
    (⟨.v08410, [a, b]⟩ : Violation) ∈ perDescLinkViol f batch k ck ↔
      k = a ∧ ck.flags &&& VK_SHADER_CREATE_LINK_STAGE_BIT_EXT ≠ 0 ∧
        ∃ cb, batch[b]? = some cb ∧ a < b ∧ ck.stage = cb.stage := by
  constructor
  · intro h
    unfold perDescLinkViol at h
    simp only [List.mem_append] at h
    rcases h with (((h | h) | h) | h) | h
    · obtain ⟨-, h2⟩ := mem_stageFeatureViol h
      rcases h2 with h2 | h2 | h2 | h2 <;> simp at h2
    · obtain ⟨-, h2⟩ := mem_attachFlagViol h
      rcases h2 with h2 | h2 <;> simp at h2
    · unfold linkBlockViol at h
      split_ifs at h with hl
      · rcases List.mem_append.1 h with h | h
        · obtain ⟨-, heq⟩ := mem_vif.1 h
          have h3 := congrArg Violation.vuid heq
          simp at h3
        · obtain ⟨j, cj, hj, hij, hst, heq⟩ := mem_dupViol.1 h
          have hargs : ([a, b] : List Nat) = [k, j] := congrArg Violation.args heq
          have hka : k = a := by injection hargs with h1 h2; omega
          have hjb : j = b := by injection hargs with h1 h2; injection h2 with h3 h4; omega
          subst hka; subst hjb
          exact ⟨rfl, hl, cj, hj, hij, hst⟩
      · exact absurd h (List.not_mem_nil _)
    · obtain ⟨-, h2⟩ := mem_nextStageSanityViol h
      rcases h2 with h2 | h2 | h2 | h2 | h2 | h2 | h2 | h2 <;> simp at h2
    · obtain ⟨-, h2⟩ := mem_subgroupFlagViol h
      rcases h2 with h2 | h2 <;> simp at h2
  · rintro ⟨rfl, hl, cb, hb, hab, hst⟩
    unfold perDescLinkViol
    simp only [List.mem_append]
    refine Or.inl (Or.inl (Or.inr ?_))
    unfold linkBlockViol
    rw [if_pos hl]
    exact List.mem_append_right _ (mem_dupViol.2 ⟨b, cb, hb, hab, hst, rfl⟩)

theorem mem_validate_410_iff (f : Features) (batch : List CreateInfo) (a b : Nat) :
    (⟨.v08410, [a, b]⟩ : Violation) ∈ validateCreateShadersLinking f batch ↔
      ∃ ca cb, batch[a]? = some ca ∧ batch[b]? = some cb ∧ a < b ∧ ca.stage = cb.stage ∧
        ca.flags &&& VK_SHADER_CREATE_LINK_STAGE_BIT_EXT ≠ 0 := by
  unfold validateCreateShadersLinking
  rw [List.mem_append, List.mem_flatMap]
  constructor
  · rintro (⟨⟨k, ck⟩, hmem, hper⟩ | hagg)
    · obtain ⟨rfl, hl, cb, hb, hab, hst⟩ := mem_perDesc_410.1 hper
      exact ⟨ck, cb, mem_enum_iff.1 hmem, hb, hab, hst, hl⟩
    · rcases mem_aggrViol hagg with h | h | h | h | h <;> simp at h
  · rintro ⟨ca, cb, ha, hb, hab, hst, hl⟩
    exact Or.inl ⟨(a, ca), mem_enum_iff.2 ha, mem_perDesc_410.2 ⟨rfl, hl, cb, hb, hab, hst⟩⟩

/-! ## Counting the duplicate-stage violations naming one pair of indices -/

theorem countP_pair410_zero {l : List Violation} {i j : Nat}
    (h : ∀ v ∈ l, v.vuid ≠ Vuid.v08410) :
    l.countP (fun v =>
      decide (v = ⟨.v08410, [i, j]⟩) || decide (v = ⟨.v08410, [j, i]⟩)) = 0 := by
  rw [List.countP_eq_zero]
  intro v hv
  simp only [Bool.or_eq_true, decide_eq_true_eq]
  rintro (rfl | rfl) <;> exact h _ hv rfl

theorem countP_perDesc_410_pair (f : Features) (batch : List CreateInfo) {i j : Nat}
    {ci cj : CreateInfo} (hij : i < j) (hi : batch[i]? = some ci)
    (hj : batch[j]? = some cj) (hstage : ci.stage = cj.stage)
    (hl : ci.flags &&& VK_SHADER_CREATE_LINK_STAGE_BIT_EXT ≠ 0)
    (k : Nat) (ck : CreateInfo) (hk : batch[k]? = some ck) :
    (perDescLinkViol f batch k ck).countP (fun v =>
      decide (v = ⟨.v08410, [i, j]⟩) || decide (v = ⟨.v08410, [j, i]⟩)) =
      if k = i then 1 else 0 := by
  have hne : i ≠ j := Nat.ne_of_lt hij
  unfold perDescLinkViol
  rw [List.countP_append, List.countP_append, List.countP_append, List.countP_append]
  rw [countP_pair410_zero (l := stageFeatureViol f k ck) (fun v hv => by
        obtain ⟨-, h2⟩ := mem_stageFeatureViol hv
        rcases h2 with h2 | h2 | h2 | h2 <;> (rw [h2]; exact fun hc => by simp at hc))]
  rw [countP_pair410_zero (l := attachFlagViol f k ck) (fun v hv => by
        obtain ⟨-, h2⟩ := mem_attachFlagViol hv
        rcases h2 with h2 | h2 <;> (rw [h2]; exact fun hc => by simp at hc))]
  rw [countP_pair410_zero (l := nextStageSanityViol f k ck) (fun v hv => by
        obtain ⟨-, h2⟩ := mem_nextStageSanityViol hv
        rcases h2 with h2 | h2 | h2 | h2 | h2 | h2 | h2 | h2 <;>
          (rw [h2]; exact fun hc => by simp at hc))]
  rw [countP_pair410_zero (l := subgroupFlagViol f k ck) (fun v hv => by
        obtain ⟨-, h2⟩ := mem_subgroupFlagViol hv
        rcases h2 with h2 | h2 <;> (rw [h2]; exact fun hc => by simp at hc))]
  simp only [Nat.zero_add, Nat.add_zero]
  unfold linkBlockViol
  by_cases hlk : ck.flags &&& VK_SHADER_CREATE_LINK_STAGE_BIT_EXT ≠ 0
  · rw [if_pos hlk, List.countP_append]
    rw [countP_pair410_zero (fun v hv => by
          obtain ⟨-, heq⟩ := mem_vif.1 hv
          rw [heq]
          exact fun hc => by simp at hc)]
    rw [Nat.zero_add]
    unfold dupViol
    rw [countP_filterMap]
    by_cases hki : k = i
    · subst hki
      have hck : ck = ci := by
        rw [hk] at hi
        exact Option.some.inj hi
      subst hck
      rw [if_pos rfl]
      rw [List.countP_congr (q := fun q =>
            decide (q.1 = j) && decide (k < j ∧ ck.stage = q.2.stage)) ?_]
      · rw [show batch.enum = batch.enumFrom 0 from rfl,
           countP_enumFrom_idx (fun c => decide (k < j ∧ ck.stage = c.stage)) j batch 0]
        rw [if_pos (Nat.zero_le j)]
        simp [hj, hij, hstage]
      · rintro ⟨m, c⟩ hmem
        by_cases hc2 : k < m ∧ ck.stage = c.stage
        · rw [if_pos hc2]
          simp only [Option.map_some, Option.getD_some]
          constructor
          · intro hx
            simp at hx
            rcases hx with hm | ⟨hkj2, -⟩
            · subst hm
              simp [hc2.1, hc2.2]
            · exact absurd hkj2 (Nat.ne_of_lt hij)
          · intro hx
            simp at hx
            obtain ⟨hm, -, -⟩ := hx
            subst hm
            simp
        · rw [if_neg hc2]
          simp only [Option.map_none, Option.getD_none]
          constructor
          · intro hx
            simp at hx
          · intro hx
            simp at hx
            exact absurd ⟨by omega, hx.2.2⟩ hc2
    · rw [if_neg hki, List.countP_eq_zero]
      rintro ⟨m, c⟩ hmem
      by_cases hc2 : k < m ∧ ck.stage = c.stage
      · rw [if_pos hc2]
        intro hx
        simp at hx
        rcases hx with ⟨hk1, -⟩ | ⟨hk1, hm1⟩
        · exact hki hk1
        · have h1 := hc2.1
          omega
      · rw [if_neg hc2]
        simp
  · rw [if_neg hlk]
    have hki : k ≠ i := by
      intro hki
      subst hki
      rw [hk] at hi
      exact hlk (by rw [Option.some.inj hi]; exact hl)
    rw [if_neg hki]
    simp

theorem countP_validate_410_pair (f : Features) (batch : List CreateInfo) {i j : Nat}
    {ci cj : CreateInfo} (hij : i < j) (hi : batch[i]? = some ci)
    (hj : batch[j]? = some cj) (hstage : ci.stage = cj.stage)
    (hl : ci.flags &&& VK_SHADER_CREATE_LINK_STAGE_BIT_EXT ≠ 0) :
    (validateCreateShadersLinking f batch).countP (fun v =>
      decide (v = ⟨.v08410, [i, j]⟩) || decide (v = ⟨.v08410, [j, i]⟩)) = 1 := by
  unfold validateCreateShadersLinking
  rw [List.countP_append]
  rw [countP_pair410_zero
        (l := aggrViol (batch.enum.foldl trackStep initLinkTrack)) (fun v hv => by
        rcases mem_aggrViol hv with h | h | h | h | h <;>
          (rw [h]; exact fun hc => by simp at hc))]
  rw [Nat.add_zero, countP_flatMap]
  rw [List.map_congr_left (g := fun q => if q.1 = i then 1 else 0) ?_]
  · rw [show batch.enum = batch.enumFrom 0 from rfl,
       sum_map_enumFrom_idx (fun _ => 1) i batch 0]
    rw [if_pos (Nat.zero_le i)]
    simp [hi]
  · rintro ⟨k, ck⟩ hmem
    exact countP_perDesc_410_pair f batch hij hi hj hstage hl k ck (mem_enum_iff.1 hmem)

/-! ## FindNextStage agrees with the specification's forward walk -/

theorem findNextStage_eq_spec (batch : List CreateInfo) (stage : Nat) :
    findNextStage batch stage = (specNextInOrderPresent batch stage).getD 0 := by
  by_cases hv : stage = VK_SHADER_STAGE_VERTEX_BIT
  · subst hv; rfl
  by_cases hc : stage = VK_SHADER_STAGE_TESSELLATION_CONTROL_BIT
  · subst hc; rfl
  by_cases he : stage = VK_SHADER_STAGE_TESSELLATION_EVALUATION_BIT
  · subst he; rfl
  by_cases hg : stage = VK_SHADER_STAGE_GEOMETRY_BIT
  · subst hg; rfl
  by_cases hf : stage = VK_SHADER_STAGE_FRAGMENT_BIT
  · subst hf; rfl
  by_cases ht : stage = VK_SHADER_STAGE_TASK_BIT_EXT
  · subst ht; rfl
  by_cases hm : stage = VK_SHADER_STAGE_MESH_BIT_EXT
  · subst hm; rfl
  have hpos : stagePos stage = none := by
    unfold stagePos
    rw [if_neg hv, if_neg ht, if_neg hc, if_neg hm, if_neg he, if_neg hf, if_neg hg]
  have hg1 : stage ∉ graphicsStagesList := by
    intro hmem
    simp only [graphicsStagesList, List.mem_cons, List.not_mem_nil, or_false] at hmem
    rcases hmem with h | h | h | h | h
    exacts [hv h, hc h, he h, hg h, hf h]
  have hm1 : stage ∉ meshStagesList := by
    intro hmem
    simp only [meshStagesList, List.mem_cons, List.not_mem_nil, or_false] at hmem
    rcases hmem with h | h | h
    exacts [ht h, hm h, hf h]
  unfold findNextStage specNextInOrderPresent
  rw [hpos, if_neg hg1, if_neg hm1]
  rfl

theorem specNext_ne_zero (batch : List CreateInfo) (stage s : Nat)
    (h : specNextInOrderPresent batch stage = some s) : s ≠ 0 := by
  unfold specNextInOrderPresent at h
  split_ifs at h with hg hm
  · have hmem : s ∈ graphicsStagesList :=
      ((List.tail_sublist _).trans (List.dropWhile_sublist _)).subset
        (List.mem_of_find?_eq_some h)
    simp only [graphicsStagesList, List.mem_cons, List.not_mem_nil, or_false] at hmem
    rcases hmem with h2 | h2 | h2 | h2 | h2 <;> subst h2 <;> decide
  · have hmem : s ∈ meshStagesList :=
      ((List.tail_sublist _).trans (List.dropWhile_sublist _)).subset
        (List.mem_of_find?_eq_some h)
    simp only [meshStagesList, List.mem_cons, List.not_mem_nil, or_false] at hmem
    rcases hmem with h2 | h2 | h2 <;> subst h2 <;> decide

theorem findNextStage_eq_zero_iff (batch : List CreateInfo) (stage : Nat) :
    findNextStage batch stage = 0 ↔ specNextInOrderPresent batch stage = none := by
  rw [findNextStage_eq_spec]
  cases h : specNextInOrderPresent batch stage with
  | none => simp
  | some s => simp [specNext_ne_zero batch stage s h]

theorem findNextStage_singleton_self (ci : CreateInfo) :
    findNextStage [ci] ci.stage = 0 := by
  unfold findNextStage stagePos
  split_ifs with hv ht hc hm he hf hg <;>
    simp_all [chainFindPresent, graphicsStagesList, meshStagesList,
      VK_SHADER_STAGE_VERTEX_BIT, VK_SHADER_STAGE_TESSELLATION_CONTROL_BIT,
      VK_SHADER_STAGE_TESSELLATION_EVALUATION_BIT, VK_SHADER_STAGE_GEOMETRY_BIT,
      VK_SHADER_STAGE_FRAGMENT_BIT, VK_SHADER_STAGE_TASK_BIT_EXT,
      VK_SHADER_STAGE_MESH_BIT_EXT]

/-! ## Emission blocks that stay empty -/

theorem vif_false {α : Type} {c : Prop} [Decidable c] (v : α) (hc : ¬c) : vif c v = [] := by
  simp [vif, hc]

theorem vif_and_left_false {α : Type} {c d : Prop} [Decidable c] [Decidable d]
    (hc : ¬c) (v : α) : vif (c ∧ d) v = [] :=
  vif_false v fun h => hc h.1

theorem vif_and_right_false {α : Type} {c d : Prop} [Decidable c] [Decidable d]
    (hd : ¬d) (v : α) : vif (c ∧ d) v = [] :=
  vif_false v fun h => hd h.2

theorem stageFeatureViol_allOn (f : Features) (i : Nat) (ci : CreateInfo)
    (h1 : f.tessellationShader = true) (h2 : f.geometryShader = true)
    (h3 : f.taskShader = true) (h4 : f.meshShader = true) :
    stageFeatureViol f i ci = [] := by
  unfold stageFeatureViol
  split_ifs <;> first | rfl | exact vif_false _ (by simp [h1, h2, h3, h4])

theorem attachFlagViol_allOn (f : Features) (i : Nat) (ci : CreateInfo)
    (h1 : f.attachmentFragmentShadingRate = true) (h2 : f.fragmentDensityMap = true) :
    attachFlagViol f i ci = [] := by
  unfold attachFlagViol
  rw [vif_and_right_false (by simp [h1]) _, vif_and_right_false (by simp [h2]) _]
  rfl

theorem subgroupFlagViol_allOn (f : Features) (i : Nat) (ci : CreateInfo)
    (h1 : f.subgroupSizeControl = true) (h2 : f.computeFullSubgroups = true) :
    subgroupFlagViol f i ci = [] := by
  unfold subgroupFlagViol
  rw [vif_and_right_false (by simp [h1]) _, vif_and_right_false (by simp [h2]) _]
  rfl

theorem nextStageSanityViol_zeroNext (f : Features) (i : Nat) (ci : CreateInfo)
    (hz : ci.nextStage = 0) : nextStageSanityViol f i ci = [] := by
  unfold nextStageSanityViol
  rw [hz]
  rw [vif_and_right_false (by decide) _, vif_and_right_false (by decide) _,
      vif_and_right_false (by decide) _, vif_and_right_false (by decide) _,
      vif_and_right_false (by decide) _, vif_and_right_false (by decide) _,
      vif_and_right_false (by decide) _, vif_and_right_false (by decide) _]
  rfl

/-- Singleton linked descriptor used by the single-LinkStage analysis: an
arbitrary stage, `nextStage` 0, only the LinkStage flag, SPIR-V code. -/
def singleLinked (stage : Nat) : CreateInfo :=
  { stage := stage, nextStage := 0, flags := VK_SHADER_CREATE_LINK_STAGE_BIT_EXT,
    codeType := .spirv, entryPoint := none }

theorem validateLinking_singletonLinked (ci : CreateInfo) (hns : ci.nextStage = 0)
    (hfl : ci.flags = VK_SHADER_CREATE_LINK_STAGE_BIT_EXT) :
    validateCreateShadersLinking allFeatures [ci] = [] := by
  have h1 : validateCreateShadersLinking allFeatures [ci] =
      (perDescLinkViol allFeatures [ci] 0 ci ++ []) ++
        aggrViol (trackStep initLinkTrack (0, ci)) := rfl
  rw [h1, List.append_nil]
  have hlb : linkBlockViol [ci] 0 ci = [] := by
    unfold linkBlockViol
    rw [if_pos (show ci.flags &&& VK_SHADER_CREATE_LINK_STAGE_BIT_EXT ≠ 0 by
          rw [hfl]; simp [VK_SHADER_CREATE_LINK_STAGE_BIT_EXT])]
    have hf0 : findNextStage [ci] ci.stage = 0 := findNextStage_singleton_self ci
    rw [vif_and_left_false (fun h => h hf0) _]
    rfl
  have hagg : aggrViol (trackStep initLinkTrack (0, ci)) = [] := by
    unfold trackStep
    dsimp only
    split_ifs <;> rfl
  unfold perDescLinkViol
  rw [stageFeatureViol_allOn _ _ _ rfl rfl rfl rfl, attachFlagViol_allOn _ _ _ rfl rfl,
      hlb, nextStageSanityViol_zeroNext _ _ _ hns, subgroupFlagViol_allOn _ _ _ rfl rfl,
      hagg]
  rfl

/-! ## Claim theorems: creation-batch linking -/

/-- C1 counterexample: the claim says every creation batch with exactly one
LinkStage descriptor must fail with a StructuralViolation whenever that
descriptor's stage is not a full chain terminator such as fragment.  At the
concrete input of a batch holding one linked vertex-stage descriptor (vertex
is not the fragment terminator), the linking validator and the tessellation
checks both report no violation at all, so the claim is false at this
input. -/
theorem c1_counterexample_single_linked_vertex_accepted :
    validateCreateShadersLinking allFeatures
        [singleLinked VK_SHADER_STAGE_VERTEX_BIT] = [] ∧
    preCallCreateShadersTessChecks 32 [singleLinked VK_SHADER_STAGE_VERTEX_BIT] = [] ∧
    VK_SHADER_STAGE_VERTEX_BIT ≠ VK_SHADER_STAGE_FRAGMENT_BIT := by
  refine ⟨by decide, by decide, by decide⟩

/-- C1 (amended): for every creation batch whose only descriptor carries the
LinkStage flag (with `nextStage` 0), the linking validator — the component
the original claim is about — raises no violation, in particular no
StructuralViolation from the next-stage walk, for every choice of the
descriptor's stage, code type and entry-point metadata: with no other
descriptor in the batch, the `FindNextStage` walk finds no present peer
stage, returns 0, and the next-stage check is skipped, so a single linked
stage is not rejected as an incomplete set.  (Per-descriptor checks outside
the linking validator, such as the tess-eval declaredness checks of lines
306-317, are independent of linking and can still fire for their own
reasons.) -/
theorem c1_single_linked_descriptor_accepted :
    ∀ (stage : Nat) (ct : CodeType) (ep : Option ExecutionModeSet),
      validateCreateShadersLinking allFeatures
        [{ stage := stage, nextStage := 0, flags := VK_SHADER_CREATE_LINK_STAGE_BIT_EXT,
           codeType := ct, entryPoint := ep }] = [] := by
  intro stage ct ep
  exact validateLinking_singletonLinked _ rfl rfl

/-- C4: per linked descriptor, the expected next stage is computed by walking
the descriptor's chain forward from its stage, skipping stages not present
among the batch's descriptors, until a present stage is found or the chain
ends (`findNextStage` equals the spec's walk `specNextInOrderPresent`, with 0
for "none"); the 08409 violation is raised for index `i` if and only if such
an expected stage exists and the descriptor's declared `nextStage` differs
from it; and for chain-end stages (fragment), stages outside both chains
(compute, ray-tracing group), no expected stage exists. -/
theorem c4_next_stage_walk_characterization :
    (∀ (batch : List CreateInfo) (stage : Nat),
        findNextStage batch stage = (specNextInOrderPresent batch stage).getD 0 ∧
        (findNextStage batch stage = 0 ↔ specNextInOrderPresent batch stage = none)) ∧
    (∀ (f : Features) (batch : List CreateInfo) (i : Nat),
        (⟨.v08409, [i]⟩ : Violation) ∈ validateCreateShadersLinking f batch ↔
          ∃ ci, batch[i]? = some ci ∧
            ci.flags &&& VK_SHADER_CREATE_LINK_STAGE_BIT_EXT ≠ 0 ∧
            ∃ s, specNextInOrderPresent batch ci.stage = some s ∧ ci.nextStage ≠ s) ∧
    (∀ batch : List CreateInfo,
        specNextInOrderPresent batch VK_SHADER_STAGE_FRAGMENT_BIT = none ∧
        specNextInOrderPresent batch VK_SHADER_STAGE_COMPUTE_BIT = none ∧
        ∀ stage : Nat, stage ∉ graphicsStagesList → stage ∉ meshStagesList →
          specNextInOrderPresent batch stage = none) := by
  refine ⟨fun batch stage => ⟨findNextStage_eq_spec batch stage,
    findNextStage_eq_zero_iff batch stage⟩, ?_, ?_⟩
  · intro f batch i
    rw [mem_validate_409_iff]
    constructor
    · rintro ⟨ci, hi, hl, h1, h2⟩
      refine ⟨ci, hi, hl, ?_⟩
      rcases hspec : specNextInOrderPresent batch ci.stage with _ | s
      · exact absurd ((findNextStage_eq_zero_iff batch ci.stage).2 hspec) h1
      · refine ⟨s, rfl, ?_⟩
        rw [findNextStage_eq_spec, hspec] at h2
        simpa using h2
    · rintro ⟨ci, hi, hl, s, hspec, hne⟩
      refine ⟨ci, hi, hl, ?_, ?_⟩
      · rw [findNextStage_eq_spec, hspec]
        simpa using specNext_ne_zero batch ci.stage s hspec
      · rw [findNextStage_eq_spec, hspec]
        simpa using hne
  · intro batch
    refine ⟨rfl, rfl, ?_⟩
    intro stage h1 h2
    unfold specNextInOrderPresent
    rw [if_neg h1, if_neg h2]

/-- C5: in any creation batch where two descriptors at distinct indices
`i < j` declare the same stage and both carry the LinkStage flag, exactly one
duplicate-stage StructuralViolation naming that pair of indices is produced —
one with indices `[i, j]`, and none in the opposite direction. -/
theorem c5_duplicate_pair_reported_exactly_once (f : Features)
    (batch : List CreateInfo) (i j : Nat) (ci cj : CreateInfo) (hij : i < j)
    (hi : batch[i]? = some ci) (hj : batch[j]? = some cj)
    (hstage : ci.stage = cj.stage)
    (hli : ci.flags &&& VK_SHADER_CREATE_LINK_STAGE_BIT_EXT ≠ 0)
    (_hlj : cj.flags &&& VK_SHADER_CREATE_LINK_STAGE_BIT_EXT ≠ 0) :
    (validateCreateShadersLinking f batch).countP (fun v =>
      decide (v = ⟨.v08410, [i, j]⟩) || decide (v = ⟨.v08410, [j, i]⟩)) = 1 :=
  countP_validate_410_pair f batch hij hi hj hstage hli

/-- C5 witness: a concrete batch of two linked vertex-stage descriptors has
exactly one duplicate-stage violation naming the pair (0, 1). -/
theorem c5_witness :
    (validateCreateShadersLinking allFeatures
        [singleLinked VK_SHADER_STAGE_VERTEX_BIT,
         singleLinked VK_SHADER_STAGE_VERTEX_BIT]).countP (fun v =>
      decide (v = ⟨.v08410, [0, 1]⟩) || decide (v = ⟨.v08410, [1, 0]⟩)) = 1 :=
  c5_duplicate_pair_reported_exactly_once allFeatures
    [singleLinked VK_SHADER_STAGE_VERTEX_BIT, singleLinked VK_SHADER_STAGE_VERTEX_BIT] 0 1
    (singleLinked VK_SHADER_STAGE_VERTEX_BIT) (singleLinked VK_SHADER_STAGE_VERTEX_BIT)
    (by decide) (by decide) (by decide) (by decide) (by decide) (by decide)

/-- C9: the duplicate-stage violation for a pair `i < j` of equal-stage
descriptors is raised if and only if the descriptor at the lower index `i`
carries the LinkStage flag (the higher index's flags are never inspected);
consequently a concrete batch whose later duplicate carries the flag while
the earlier one does not produces no duplicate-stage violation at all. -/
theorem c9_duplicate_requires_lower_index_flag :
    (∀ (f : Features) (batch : List CreateInfo) (i j : Nat) (ci cj : CreateInfo),
        i < j → batch[i]? = some ci → batch[j]? = some cj → ci.stage = cj.stage →
        ((∃ v ∈ validateCreateShadersLinking f batch,
            v.vuid = .v08410 ∧ v.args = [i, j]) ↔
          ci.flags &&& VK_SHADER_CREATE_LINK_STAGE_BIT_EXT ≠ 0)) ∧
    (validateCreateShadersLinking allFeatures
        [{ stage := VK_SHADER_STAGE_VERTEX_BIT, nextStage := 0, flags := 0,
           codeType := .spirv, entryPoint := none },
         singleLinked VK_SHADER_STAGE_VERTEX_BIT]).countP
      (fun v => decide (v.vuid = .v08410)) = 0 := by
  constructor
  · intro f batch i j ci cj hij hi hj hstage
    constructor
    · rintro ⟨v, hv, hvuid, hargs⟩
      obtain ⟨a, b⟩ := v
      have ha : a = .v08410 := hvuid
      have hb : b = [i, j] := hargs
      subst ha
      subst hb
      obtain ⟨ca, cb, ha2, hb2, hab, hst, hl⟩ := (mem_validate_410_iff f batch i j).1 hv
      rw [hi] at ha2
      rw [Option.some.inj ha2]
      exact hl
    · intro hl
      exact ⟨⟨.v08410, [i, j]⟩,
        (mem_validate_410_iff f batch i j).2 ⟨ci, cj, hi, hj, hij, hstage, hl⟩, rfl, rfl⟩
  · decide

/-- C9 witness: at a concrete batch of two equal-stage descriptors whose
lower-index one carries LinkStage, the duplicate violation naming (0, 1) is
present. -/
theorem c9_witness :
    ∃ v ∈ validateCreateShadersLinking allFeatures
        [singleLinked VK_SHADER_STAGE_VERTEX_BIT,
         singleLinked VK_SHADER_STAGE_VERTEX_BIT],
      v.vuid = .v08410 ∧ v.args = [0, 1] :=
  (c9_duplicate_requires_lower_index_flag.1 allFeatures
    [singleLinked VK_SHADER_STAGE_VERTEX_BIT, singleLinked VK_SHADER_STAGE_VERTEX_BIT] 0 1
    (singleLinked VK_SHADER_STAGE_VERTEX_BIT) (singleLinked VK_SHADER_STAGE_VERTEX_BIT)
    (by decide) (by decide) (by decide) (by decide)).2 (by decide)

/-- C8: batch validation is a pure function of its inputs; its only effect is
appending its violation list to the diagnostics log, so validating the same
creation batch twice with no state mutation in between appends the identical
violation set both times. -/
theorem c8_validation_idempotent :
    ∀ (f : Features) (batch : List CreateInfo) (log : List Violation),
      runCreationValidationLog f batch (runCreationValidationLog f batch log) =
        log ++ validateCreateShadersLinking f batch ++ validateCreateShadersLinking f batch ∧
      (runCreationValidationLog f batch (runCreationValidationLog f batch log)).drop
          (runCreationValidationLog f batch log).length =
        (runCreationValidationLog f batch log).drop log.length := by
  intro f batch log
  constructor
  · simp [runCreationValidationLog, List.append_assoc]
  · simp only [runCreationValidationLog]
    rw [List.drop_left, List.drop_left]

/-! ## Tessellation checks: lemmas -/

theorem mem_tessDescViol {maxPatch i : Nat} {ci : CreateInfo} {v : Violation}
    (h : v ∈ tessDescViol maxPatch i ci) :
    v.args = [i] ∧ (v.vuid = .v08872 ∨ v.vuid = .v08873 ∨ v.vuid = .v08874 ∨
      v.vuid = .v08453) := by
  unfold tessDescViol at h
  rcases hep : ci.entryPoint with _ | em
  all_goals rw [hep] at h
  all_goals split_ifs at h
  all_goals
    first
      | exact absurd h (List.not_mem_nil v)
      | (simp only [List.mem_append, mem_vif, List.nil_append, or_assoc] at h
         rcases h with ⟨-, rfl⟩ | ⟨-, rfl⟩ | ⟨-, rfl⟩ | ⟨-, rfl⟩
         all_goals simp)
      | (simp only [List.mem_append, mem_vif, List.nil_append, or_assoc] at h
         obtain ⟨-, rfl⟩ := h
         simp)

theorem mem_crossStageViol {a : TessAccum} {v : Violation} (h : v ∈ crossStageViol a) :
    v.args = [] ∧ (v.vuid = .v08867 ∨ v.vuid = .v08868 ∨ v.vuid = .v08869 ∨
      v.vuid = .v08870) := by
  unfold crossStageViol at h
  simp only [List.mem_append, or_assoc] at h
  rcases h with h | h | h | h <;> (obtain ⟨-, rfl⟩ := mem_vif.1 h; simp)

theorem tessAccumStep_tesc_unchanged (a : TessAccum) (c : CreateInfo)
    (h : ¬(c.codeType = .spirv ∧ c.entryPoint.isSome ∧
        c.stage = VK_SHADER_STAGE_TESSELLATION_CONTROL_BIT ∧
        c.flags &&& VK_SHADER_CREATE_LINK_STAGE_BIT_EXT ≠ 0)) :
    (tessAccumStep a c).tesc_linked_subdivision = a.tesc_linked_subdivision ∧
    (tessAccumStep a c).tesc_linked_orientation = a.tesc_linked_orientation ∧
    (tessAccumStep a c).tesc_linked_point_mode = a.tesc_linked_point_mode ∧
    (tessAccumStep a c).tesc_linked_spacing = a.tesc_linked_spacing := by
  unfold tessAccumStep
  rcases hep : c.entryPoint with _ | em <;> simp only [hep]
  · split_ifs <;> exact ⟨rfl, rfl, rfl, rfl⟩
  · split_ifs <;>
      first
        | exact ⟨rfl, rfl, rfl, rfl⟩
        | (exfalso
           apply h
           refine ⟨by assumption, by rw [hep]; rfl, by assumption, by assumption⟩)

theorem tessAccumFold_tesc_unchanged :
    ∀ (l : List CreateInfo) (a : TessAccum),
      (∀ ci ∈ l, ¬(ci.codeType = .spirv ∧ ci.entryPoint.isSome ∧
          ci.stage = VK_SHADER_STAGE_TESSELLATION_CONTROL_BIT ∧
          ci.flags &&& VK_SHADER_CREATE_LINK_STAGE_BIT_EXT ≠ 0)) →
      (l.foldl tessAccumStep a).tesc_linked_subdivision = a.tesc_linked_subdivision ∧
      (l.foldl tessAccumStep a).tesc_linked_orientation = a.tesc_linked_orientation ∧
      (l.foldl tessAccumStep a).tesc_linked_point_mode = a.tesc_linked_point_mode ∧
      (l.foldl tessAccumStep a).tesc_linked_spacing = a.tesc_linked_spacing := by
  intro l
  induction l with
  | nil => exact fun a _ => ⟨rfl, rfl, rfl, rfl⟩
  | cons c l ih =>
    intro a h
    rw [List.foldl_cons]
    have hstep := tessAccumStep_tesc_unchanged a c (h c (List.mem_cons_self c l))
    have hrest := ih (tessAccumStep a c) fun ci hci => h ci (List.mem_cons_of_mem c hci)
    exact ⟨hrest.1.trans hstep.1, hrest.2.1.trans hstep.2.1,
      hrest.2.2.1.trans hstep.2.2.1, hrest.2.2.2.trans hstep.2.2.2⟩

theorem crossStageViol_empty_of_tesc_clear (a : TessAccum)
    (h1 : a.tesc_linked_subdivision = 0) (h2 : a.tesc_linked_orientation = 0)
    (h3 : a.tesc_linked_point_mode = false) (h4 : a.tesc_linked_spacing = 0) :
    crossStageViol a = [] := by
  unfold crossStageViol
  rw [vif_and_left_false (by simp [h1]) _, vif_and_left_false (by simp [h2]) _,
      vif_and_left_false (by simp [h3]) _, vif_and_left_false (by simp [h4]) _]
  rfl

/-- Unlinked tess-eval SPIR-V descriptor whose entry point declares no
subdivision mode (orientation and spacing declared, patch size undeclared). -/
def teseUnlinkedNoSub : CreateInfo :=
  { stage := VK_SHADER_STAGE_TESSELLATION_EVALUATION_BIT, nextStage := 0, flags := 0,
    codeType := .spirv,
    entryPoint := some { tessellation_subdivision := 0, tessellation_orientation := 1,
                         tessellation_spacing := 1, pointMode := false,
                         output_vertices := kU32Max } }

/-- Linked tess-control SPIR-V descriptor declaring point mode. -/
def tescLinkedPointMode : CreateInfo :=
  { stage := VK_SHADER_STAGE_TESSELLATION_CONTROL_BIT, nextStage := 0,
    flags := VK_SHADER_CREATE_LINK_STAGE_BIT_EXT, codeType := .spirv,
    entryPoint := some { tessellation_subdivision := 1, tessellation_orientation := 1,
                         tessellation_spacing := 1, pointMode := true,
                         output_vertices := kU32Max } }

/-! ## Claim theorems: tessellation interface checks -/

/-- C2 counterexample: the claim says the tessellation declaredness checks
(subdivision, orientation, spacing non-zero on tess-eval) are evaluated only
when both a linked tess-control and a linked tess-eval descriptor are present,
and that when either is absent none of these violations is raised.  At the
concrete batch holding a single non-linked tess-eval descriptor with no
subdivision mode — no tess-control descriptor and no LinkStage flag anywhere —
the checks do run and report the subdivision violation, so the claim is false
at this input. -/
theorem c2_counterexample_unlinked_tese_checked :
    preCallCreateShadersTessChecks 32 [teseUnlinkedNoSub] =
      [⟨.v08872, [0]⟩] ∧
    (∀ ci ∈ [teseUnlinkedNoSub],
      ci.stage ≠ VK_SHADER_STAGE_TESSELLATION_CONTROL_BIT ∧
      ci.flags &&& VK_SHADER_CREATE_LINK_STAGE_BIT_EXT = 0) := by
  refine ⟨by decide, by decide⟩

/-- C2 (amended): the cross-stage tessellation agreement checks read
accumulators that only a linked SPIR-V tess-control descriptor can set, so
with no such descriptor in the batch no cross-stage violation (08867, 08868,
08869, 08870) is raised — only per-descriptor ones can appear; but the
declaredness checks (subdivision and its siblings non-zero on tess-eval) run
for every SPIR-V tess-eval descriptor with an entry point, regardless of the
LinkStage flag or of any tess-control descriptor's presence; and the
point-mode implication check fires for a linked tess-control declaring point
mode even when no tess-eval descriptor exists in the batch at all. -/
theorem c2_tess_checks_not_gated_on_pair :
    (∀ (maxPatch : Nat) (batch : List CreateInfo),
        (∀ ci ∈ batch, ¬(ci.codeType = .spirv ∧ ci.entryPoint.isSome ∧
            ci.stage = VK_SHADER_STAGE_TESSELLATION_CONTROL_BIT ∧
            ci.flags &&& VK_SHADER_CREATE_LINK_STAGE_BIT_EXT ≠ 0)) →
        ∀ v ∈ preCallCreateShadersTessChecks maxPatch batch,
          v.vuid = .v08872 ∨ v.vuid = .v08873 ∨ v.vuid = .v08874 ∨ v.vuid = .v08453) ∧
    (∀ (maxPatch i : Nat) (batch : List CreateInfo) (ci : CreateInfo)
        (em : ExecutionModeSet),
        batch[i]? = some ci → ci.codeType = .spirv → ci.entryPoint = some em →
        ci.stage = VK_SHADER_STAGE_TESSELLATION_EVALUATION_BIT →
        em.tessellation_subdivision = 0 →
        (⟨.v08872, [i]⟩ : Violation) ∈ preCallCreateShadersTessChecks maxPatch batch) ∧
    ((⟨.v08869, []⟩ : Violation) ∈ preCallCreateShadersTessChecks 32 [tescLinkedPointMode]) := by
  refine ⟨?_, ?_, by decide⟩
  · intro maxPatch batch hno v hv
    unfold preCallCreateShadersTessChecks at hv
    rcases List.mem_append.1 hv with hv | hv
    · obtain ⟨⟨k, ck⟩, -, hblock⟩ := List.mem_flatMap.1 hv
      exact (mem_tessDescViol hblock).2
    · have hclear := tessAccumFold_tesc_unchanged batch initTessAccum hno
      rw [crossStageViol_empty_of_tesc_clear _ hclear.1 hclear.2.1 hclear.2.2.1
        hclear.2.2.2] at hv
      exact absurd hv (List.not_mem_nil v)
  · intro maxPatch i batch ci em hi hcode hep hstage hsub
    unfold preCallCreateShadersTessChecks
    refine List.mem_append_left _ (List.mem_flatMap.2 ⟨(i, ci), mem_enum_iff.2 hi, ?_⟩)
    unfold tessDescViol
    rw [if_pos hcode, hep]
    dsimp only
    rw [if_pos (Or.inr hstage), if_pos hstage]
    exact List.mem_append_left _ (List.mem_append_left _
      (List.mem_append_left _ (mem_vif.2 ⟨hsub, rfl⟩)))

/-- C2 witness: the amended characterization applied at the concrete
single-descriptor batch of the counterexample — the subdivision violation is
a member of the output, and (by the first part) every violation the batch
produces is a per-descriptor one. -/
theorem c2_witness :
    (⟨.v08872, [0]⟩ : Violation) ∈ preCallCreateShadersTessChecks 32 [teseUnlinkedNoSub] ∧
    ((⟨.v08872, [0]⟩ : Violation).vuid = .v08872 ∨
      (⟨.v08872, [0]⟩ : Violation).vuid = .v08873 ∨
      (⟨.v08872, [0]⟩ : Violation).vuid = .v08874 ∨
      (⟨.v08872, [0]⟩ : Violation).vuid = .v08453) := by
  have hm := c2_tess_checks_not_gated_on_pair.2.1 32 0 [teseUnlinkedNoSub] teseUnlinkedNoSub
    { tessellation_subdivision := 0, tessellation_orientation := 1,
      tessellation_spacing := 1, pointMode := false, output_vertices := kU32Max }
    (by decide) (by decide) (by decide) (by decide) (by decide)
  exact ⟨hm, c2_tess_checks_not_gated_on_pair.1 32 [teseUnlinkedNoSub] (by decide) _ hm⟩

/-! ## Bind-call validator: lemmas -/

theorem mem_bindDescViol_ne_mutex {f : Features} {qf : Nat}
    {resolve : Nat → Option ShaderInfo} {pairs : List BindEntry} {i : Nat}
    {e : BindEntry} {v : Violation} (h : v ∈ bindDescViol f qf resolve pairs i e) :
    v.vuid ≠ .v08470 ∧ v.vuid ≠ .v08471 := by
  unfold bindDescViol at h
  simp only [List.mem_append, or_assoc] at h
  rcases h with h | h | h | h | h | h | h | h | h | h
  · obtain ⟨q, -, heq⟩ := List.mem_filterMap.1 h
    split at heq
    · rw [← Option.some.inj heq]
      exact ⟨by simp, by simp⟩
    · exact absurd heq (by simp)
  · split_ifs at h <;>
      first
        | exact absurd h (List.not_mem_nil v)
        | (rw [List.mem_singleton] at h; subst h; exact ⟨by simp, by simp⟩)
        | (obtain ⟨-, rfl⟩ := mem_vif.1 h; exact ⟨by simp, by simp⟩)
  · obtain ⟨-, rfl⟩ := mem_vif.1 h
    exact ⟨by simp, by simp⟩
  · obtain ⟨-, rfl⟩ := mem_vif.1 h
    exact ⟨by simp, by simp⟩
  · split_ifs at h <;>
      first
        | exact absurd h (List.not_mem_nil v)
        | (rw [List.mem_singleton] at h; subst h; exact ⟨by simp, by simp⟩)
  · obtain ⟨-, rfl⟩ := mem_vif.1 h
    exact ⟨by simp, by simp⟩
  · obtain ⟨-, rfl⟩ := mem_vif.1 h
    exact ⟨by simp, by simp⟩
  · obtain ⟨-, rfl⟩ := mem_vif.1 h
    exact ⟨by simp, by simp⟩
  · obtain ⟨-, rfl⟩ := mem_vif.1 h
    exact ⟨by simp, by simp⟩
  · split_ifs at h
    · rcases hres : resolve e.shader with _ | srec <;> rw [hres] at h
      · exact absurd h (List.not_mem_nil v)
      · obtain ⟨-, rfl⟩ := mem_vif.1 h
        exact ⟨by simp, by simp⟩
    · exact absurd h (List.not_mem_nil v)

theorem bindTrack_vertex_none :
    ∀ (l : List (Nat × BindEntry)) (st : BindTrack),
      (l.foldl bindTrackStep st).vertexStageIndex = none ↔
        st.vertexStageIndex = none ∧
        ∀ p ∈ l, ¬(p.2.stage = VK_SHADER_STAGE_VERTEX_BIT ∧ p.2.shader ≠ 0) := by
  intro l
  induction l with
  | nil => intro st; simp
  | cons q l ih =>
    intro st
    rw [List.foldl_cons, ih]
    constructor
    · rintro ⟨h1, h2⟩
      refine ⟨?_, ?_⟩
      · by_cases hc : q.2.stage = VK_SHADER_STAGE_VERTEX_BIT ∧ q.2.shader ≠ 0
        · exfalso
          unfold bindTrackStep at h1
          rw [if_pos hc] at h1
          simp at h1
        · unfold bindTrackStep at h1
          rw [if_neg hc] at h1
          split_ifs at h1 <;> exact h1
      · intro p hp
        rcases List.mem_cons.1 hp with rfl | hp2
        · intro hc
          unfold bindTrackStep at h1
          rw [if_pos hc] at h1
          simp at h1
        · exact h2 p hp2
    · rintro ⟨h1, h2⟩
      refine ⟨?_, fun p hp => h2 p (List.mem_cons_of_mem q hp)⟩
      have hcq := h2 q (List.mem_cons_self q l)
      unfold bindTrackStep
      rw [if_neg hcq]
      split_ifs <;> exact h1

theorem bindTrack_task_none :
    ∀ (l : List (Nat × BindEntry)) (st : BindTrack),
      (l.foldl bindTrackStep st).taskStageIndex = none ↔
        st.taskStageIndex = none ∧
        ∀ p ∈ l, ¬(p.2.stage = VK_SHADER_STAGE_TASK_BIT_EXT ∧ p.2.shader ≠ 0) := by
  intro l
  induction l with
  | nil => intro st; simp
  | cons q l ih =>
    intro st
    rw [List.foldl_cons, ih]
    have hexcl : (q.2.stage = VK_SHADER_STAGE_TASK_BIT_EXT ∧ q.2.shader ≠ 0) →
        ¬(q.2.stage = VK_SHADER_STAGE_VERTEX_BIT ∧ q.2.shader ≠ 0) := by
      rintro ⟨hs, -⟩ ⟨hs2, -⟩
      rw [hs] at hs2
      exact absurd hs2 (by decide)
    constructor
    · rintro ⟨h1, h2⟩
      refine ⟨?_, ?_⟩
      · by_cases hc : q.2.stage = VK_SHADER_STAGE_TASK_BIT_EXT ∧ q.2.shader ≠ 0
        · exfalso
          unfold bindTrackStep at h1
          rw [if_neg (fun h3 => hexcl hc h3), if_pos hc] at h1
          simp at h1
        · unfold bindTrackStep at h1
          dsimp only at h1
          split_ifs at h1 <;> exact h1
      · intro p hp
        rcases List.mem_cons.1 hp with rfl | hp2
        · intro hc
          unfold bindTrackStep at h1
          rw [if_neg (fun h3 => hexcl hc h3), if_pos hc] at h1
          simp at h1
        · exact h2 p hp2
    · rintro ⟨h1, h2⟩
      refine ⟨?_, fun p hp => h2 p (List.mem_cons_of_mem q hp)⟩
      have hcq := h2 q (List.mem_cons_self q l)
      unfold bindTrackStep
      dsimp only
      split_ifs <;> exact h1

theorem countP_vuid_zero {l : List Violation} {u : Vuid} (h : ∀ v ∈ l, v.vuid ≠ u) :
    l.countP (fun v => decide (v.vuid = u)) = 0 := by
  rw [List.countP_eq_zero]
  intro v hv
  simp [h v hv]

theorem countP_bind_mutex_vt (f : Features) (qf : Nat)
    (resolve : Nat → Option ShaderInfo) (pairs : List BindEntry)
    (hv : ∃ p ∈ pairs, p.stage = VK_SHADER_STAGE_VERTEX_BIT ∧ p.shader ≠ 0)
    (ht : ∃ p ∈ pairs, p.stage = VK_SHADER_STAGE_TASK_BIT_EXT ∧ p.shader ≠ 0) :
    (preCallValidateCmdBindShadersEXT f qf resolve pairs).countP
      (fun v => decide (v.vuid = .v08470)) = 1 := by
  unfold preCallValidateCmdBindShadersEXT
  dsimp only
  rw [List.countP_append, List.countP_append, List.countP_append]
  rw [countP_vuid_zero (l := vif (f.shaderObject = false) ⟨.v08462, []⟩) (fun v hv2 => by
        obtain ⟨-, rfl⟩ := mem_vif.1 hv2
        simp)]
  rw [countP_flatMap]
  rw [List.map_congr_left (g := fun _ => 0) (fun q _ => countP_vuid_zero
        (fun v hv2 => (mem_bindDescViol_ne_mutex hv2).1))]
  rw [List.sum_eq_zero (fun x hx => (List.mem_map.1 hx).elim fun q hq => hq.2.symm)]
  rcases hvo : (pairs.enum.foldl bindTrackStep initBindTrack).vertexStageIndex with _ | a
  · exfalso
    obtain ⟨-, hall⟩ := (bindTrack_vertex_none pairs.enum initBindTrack).1 hvo
    obtain ⟨p, hp, hc⟩ := hv
    obtain ⟨ip, hip⟩ := List.mem_iff_getElem?.1 hp
    exact hall (ip, p) (mem_enum_iff.2 hip) hc
  · rcases hto : (pairs.enum.foldl bindTrackStep initBindTrack).taskStageIndex with _ | b
    · exfalso
      obtain ⟨-, hall⟩ := (bindTrack_task_none pairs.enum initBindTrack).1 hto
      obtain ⟨p, hp, hc⟩ := ht
      obtain ⟨ip, hip⟩ := List.mem_iff_getElem?.1 hp
      exact hall (ip, p) (mem_enum_iff.2 hip) hc
    · have hmesh : ∀ (x y : Option Nat),
          (vpair x y .v08471).countP (fun v => decide (v.vuid = .v08470)) = 0 := by
        intro x y
        cases x <;> cases y <;> simp [vpair]
      rw [hmesh]
      simp [vpair]

/-! ## Claim theorems: bind-call vertex/task exclusion -/

/-- C6: any bind call whose stage array contains a vertex entry with a
non-null shader and a task entry with a non-null shader reports exactly one
vertex/task mutual-exclusion violation (08470); and for the two-entry call
the result is order-invariant — whichever of the two entries comes first, the
single 08470 violation is produced and its vertex and task roles point at the
same two entries (indices (0, 1) in one order, (1, 0) in the other, naming
the identical (stage, shader) pairs). -/
theorem c6_bind_vertex_task_exclusive :
    (∀ (f : Features) (qf : Nat) (resolve : Nat → Option ShaderInfo)
        (pairs : List BindEntry),
        (∃ p ∈ pairs, p.stage = VK_SHADER_STAGE_VERTEX_BIT ∧ p.shader ≠ 0) →
        (∃ p ∈ pairs, p.stage = VK_SHADER_STAGE_TASK_BIT_EXT ∧ p.shader ≠ 0) →
        (preCallValidateCmdBindShadersEXT f qf resolve pairs).countP
          (fun v => decide (v.vuid = .v08470)) = 1) ∧
    (∀ (f : Features) (qf : Nat) (resolve : Nat → Option ShaderInfo) (a b : Nat),
        a ≠ 0 → b ≠ 0 →
        ((⟨.v08470, [0, 1]⟩ : Violation) ∈ preCallValidateCmdBindShadersEXT f qf resolve
            [⟨VK_SHADER_STAGE_VERTEX_BIT, a⟩, ⟨VK_SHADER_STAGE_TASK_BIT_EXT, b⟩]) ∧
        ((⟨.v08470, [1, 0]⟩ : Violation) ∈ preCallValidateCmdBindShadersEXT f qf resolve
            [⟨VK_SHADER_STAGE_TASK_BIT_EXT, b⟩, ⟨VK_SHADER_STAGE_VERTEX_BIT, a⟩]) ∧
        (preCallValidateCmdBindShadersEXT f qf resolve
            [⟨VK_SHADER_STAGE_VERTEX_BIT, a⟩, ⟨VK_SHADER_STAGE_TASK_BIT_EXT, b⟩]).countP
          (fun v => decide (v.vuid = .v08470)) = 1 ∧
        (preCallValidateCmdBindShadersEXT f qf resolve
            [⟨VK_SHADER_STAGE_TASK_BIT_EXT, b⟩, ⟨VK_SHADER_STAGE_VERTEX_BIT, a⟩]).countP
          (fun v => decide (v.vuid = .v08470)) = 1) := by
  refine ⟨countP_bind_mutex_vt, ?_⟩
  intro f qf resolve a b ha hb
  have henum1 : ([⟨VK_SHADER_STAGE_VERTEX_BIT, a⟩, ⟨VK_SHADER_STAGE_TASK_BIT_EXT, b⟩] :
      List BindEntry).enum =
      [(0, ⟨VK_SHADER_STAGE_VERTEX_BIT, a⟩), (1, ⟨VK_SHADER_STAGE_TASK_BIT_EXT, b⟩)] := rfl
  have henum2 : ([⟨VK_SHADER_STAGE_TASK_BIT_EXT, b⟩, ⟨VK_SHADER_STAGE_VERTEX_BIT, a⟩] :
      List BindEntry).enum =
      [(0, ⟨VK_SHADER_STAGE_TASK_BIT_EXT, b⟩), (1, ⟨VK_SHADER_STAGE_VERTEX_BIT, a⟩)] := rfl
  have hfold1 : (([⟨VK_SHADER_STAGE_VERTEX_BIT, a⟩, ⟨VK_SHADER_STAGE_TASK_BIT_EXT, b⟩] :
      List BindEntry).enum.foldl bindTrackStep initBindTrack) =
      ⟨some 0, some 1, none⟩ := by
    rw [henum1]
    simp [bindTrackStep, initBindTrack, ha, hb, VK_SHADER_STAGE_VERTEX_BIT,
      VK_SHADER_STAGE_TASK_BIT_EXT, VK_SHADER_STAGE_MESH_BIT_EXT]
  have hfold2 : (([⟨VK_SHADER_STAGE_TASK_BIT_EXT, b⟩, ⟨VK_SHADER_STAGE_VERTEX_BIT, a⟩] :
      List BindEntry).enum.foldl bindTrackStep initBindTrack) =
      ⟨some 1, some 0, none⟩ := by
    rw [henum2]
    simp [bindTrackStep, initBindTrack, ha, hb, VK_SHADER_STAGE_VERTEX_BIT,
      VK_SHADER_STAGE_TASK_BIT_EXT, VK_SHADER_STAGE_MESH_BIT_EXT]
  refine ⟨?_, ?_, ?_, ?_⟩
  · unfold preCallValidateCmdBindShadersEXT
    dsimp only
    rw [hfold1]
    refine List.mem_append_right _ (List.mem_append_left _ ?_)
    simp [vpair]
  · unfold preCallValidateCmdBindShadersEXT
    dsimp only
    rw [hfold2]
    refine List.mem_append_right _ (List.mem_append_left _ ?_)
    simp [vpair]
  · exact countP_bind_mutex_vt f qf resolve _
      ⟨⟨VK_SHADER_STAGE_VERTEX_BIT, a⟩, by simp, rfl, ha⟩
      ⟨⟨VK_SHADER_STAGE_TASK_BIT_EXT, b⟩, by simp, rfl, hb⟩
  · exact countP_bind_mutex_vt f qf resolve _
      ⟨⟨VK_SHADER_STAGE_VERTEX_BIT, a⟩, by simp, rfl, ha⟩
      ⟨⟨VK_SHADER_STAGE_TASK_BIT_EXT, b⟩, by simp, rfl, hb⟩

/-- C6 witness: a concrete two-entry bind call binding vertex and task shaders
with non-null handles, in both orders, against an empty handle table and a
graphics-capable queue. -/
theorem c6_witness :
    (preCallValidateCmdBindShadersEXT allFeatures VK_QUEUE_GRAPHICS_BIT (fun _ => none)
        [⟨VK_SHADER_STAGE_VERTEX_BIT, 5⟩, ⟨VK_SHADER_STAGE_TASK_BIT_EXT, 7⟩]).countP
      (fun v => decide (v.vuid = .v08470)) = 1 ∧
    ((⟨.v08470, [1, 0]⟩ : Violation) ∈ preCallValidateCmdBindShadersEXT allFeatures
        VK_QUEUE_GRAPHICS_BIT (fun _ => none)
        [⟨VK_SHADER_STAGE_TASK_BIT_EXT, 7⟩, ⟨VK_SHADER_STAGE_VERTEX_BIT, 5⟩]) :=
  ⟨(c6_bind_vertex_task_exclusive.2 allFeatures VK_QUEUE_GRAPHICS_BIT (fun _ => none) 5 7
      (by decide) (by decide)).2.2.1,
   (c6_bind_vertex_task_exclusive.2 allFeatures VK_QUEUE_GRAPHICS_BIT (fun _ => none) 5 7
      (by decide) (by decide)).2.1⟩

/-! ## Claim theorems: draw-time checks -/

/-- C7: at draw time for the graphics bind point, each capability-enabled
mandatory stage (vertex and fragment always; tess-control and tess-eval when
the tessellationShader capability is enabled; geometry when geometryShader is;
task and mesh when their capabilities are) must be `ExplicitNull` or
`ShaderBound`: exactly one violation naming the stage is raised when such a
stage is left `Unbound`, and none is raised for a stage whose gating
capability is disabled. -/
theorem c7_mandatory_stage_presence :
    ∀ (f : Features) (validCombination : Bool) (lb : LastBoundSlots),
      ((validateShaderObjectBoundShader f validCombination .graphics lb).countP
          (fun v => decide (v = ⟨.v08684, []⟩)) =
        if lb.vertex = .unbound then 1 else 0) ∧
      ((validateShaderObjectBoundShader f validCombination .graphics lb).countP
          (fun v => decide (v = ⟨.v08685, []⟩)) =
        if f.tessellationShader = true ∧ lb.tessControl = .unbound then 1 else 0) ∧
      ((validateShaderObjectBoundShader f validCombination .graphics lb).countP
          (fun v => decide (v = ⟨.v08686, []⟩)) =
        if f.tessellationShader = true ∧ lb.tessEval = .unbound then 1 else 0) ∧
      ((validateShaderObjectBoundShader f validCombination .graphics lb).countP
          (fun v => decide (v = ⟨.v08687, []⟩)) =
        if f.geometryShader = true ∧ lb.geometry = .unbound then 1 else 0) ∧
      ((validateShaderObjectBoundShader f validCombination .graphics lb).countP
          (fun v => decide (v = ⟨.v08688, []⟩)) =
        if lb.fragment = .unbound then 1 else 0) ∧
      ((validateShaderObjectBoundShader f validCombination .graphics lb).countP
          (fun v => decide (v = ⟨.v08689, []⟩)) =
        if f.taskShader = true ∧ lb.task = .unbound then 1 else 0) ∧
      ((validateShaderObjectBoundShader f validCombination .graphics lb).countP
          (fun v => decide (v = ⟨.v08690, []⟩)) =
        if f.meshShader = true ∧ lb.mesh = .unbound then 1 else 0) := by
  intro f vc lb
  have hval : ∀ s : BindingSlot, (isValidShaderOrNullBound s = false) ↔ s = .unbound := by
    intro s
    cases s <;> simp [isValidShaderOrNullBound]
  refine ⟨?_, ?_, ?_, ?_, ?_, ?_, ?_⟩ <;>
    simp [validateShaderObjectBoundShader, List.countP_append, countP_vif, hval]

/-- C3: with the taskShader and meshShader capabilities enabled, the
draw-time mesh/task consistency block raises a violation when a mesh shader
created without `NO_TASK_SHADER` is bound with no task shader bound (08694),
and raises exactly one violation — the NoTaskShader contradiction, 08695 —
when a mesh shader created with the flag is bound while a task shader is also
bound. -/
theorem c3_mesh_no_task_flag_checks :
    ∀ f : Features, f.taskShader = true → f.meshShader = true →
      (∀ (lb : DrawBound) (m : ShaderInfo), lb.meshShader = some m →
        m.flags &&& VK_SHADER_CREATE_NO_TASK_SHADER_BIT_EXT = 0 → lb.taskShader = none →
        validateDrawMeshTaskFlags f lb = [⟨.v08694, []⟩]) ∧
      (∀ (lb : DrawBound) (m : ShaderInfo), lb.meshShader = some m →
        m.flags &&& VK_SHADER_CREATE_NO_TASK_SHADER_BIT_EXT ≠ 0 → lb.taskShader ≠ none →
        validateDrawMeshTaskFlags f lb = [⟨.v08695, []⟩]) := by
  intro f hf1 hf2
  constructor
  · intro lb m hm hflag htask
    unfold validateDrawMeshTaskFlags
    rw [if_pos ⟨hf1, hf2⟩]
    simp only [hm]
    rw [if_pos ⟨hflag, htask⟩]
  · intro lb m hm hflag htask
    unfold validateDrawMeshTaskFlags
    rw [if_pos ⟨hf1, hf2⟩]
    simp only [hm]
    rw [if_neg (fun h => hflag h.1), if_pos ⟨hflag, htask⟩]

/-- C3 witness: at a concrete state with a mesh shader created without the
flag and no task shader, 08694 is the single violation; at a state with a
NoTaskShader mesh shader and a bound task shader, 08695 is the single
violation. -/
theorem c3_witness :
    validateDrawMeshTaskFlags allFeatures
        ⟨none, none, some ⟨VK_SHADER_STAGE_MESH_BIT_EXT, 0⟩⟩ = [⟨.v08694, []⟩] ∧
    validateDrawMeshTaskFlags allFeatures
        ⟨none, some ⟨VK_SHADER_STAGE_TASK_BIT_EXT, 0⟩,
         some ⟨VK_SHADER_STAGE_MESH_BIT_EXT, VK_SHADER_CREATE_NO_TASK_SHADER_BIT_EXT⟩⟩ =
      [⟨.v08695, []⟩] :=
  ⟨(c3_mesh_no_task_flag_checks allFeatures rfl rfl).1
      ⟨none, none, some ⟨VK_SHADER_STAGE_MESH_BIT_EXT, 0⟩⟩
      ⟨VK_SHADER_STAGE_MESH_BIT_EXT, 0⟩ rfl (by decide) rfl,
   (c3_mesh_no_task_flag_checks allFeatures rfl rfl).2
      ⟨none, some ⟨VK_SHADER_STAGE_TASK_BIT_EXT, 0⟩,
       some ⟨VK_SHADER_STAGE_MESH_BIT_EXT, VK_SHADER_CREATE_NO_TASK_SHADER_BIT_EXT⟩⟩
      ⟨VK_SHADER_STAGE_MESH_BIT_EXT, VK_SHADER_CREATE_NO_TASK_SHADER_BIT_EXT⟩ rfl
      (by decide) (by decide)⟩

/-- C10: for a plain (non-mesh-dispatch) draw, whenever a task or mesh shader
is bound the check raises exactly one violation; and the formatted message
names the opposite stage — a state with only a mesh shader bound yields the
message "Task shader is bound." and a state with only a task shader bound
yields "Mesh shader is bound.". -/
theorem c10_mesh_draw_message_swapped :
    ∀ (func : Func) (lb : DrawBound), func ∉ meshTasksFuncList →
      ((lb.taskShader.isSome ∨ lb.meshShader.isSome) →
        (validateDrawShaderObjectMesh func lb).length = 1) ∧
      (lb.meshShader.isSome → lb.taskShader = none →
        validateDrawShaderObjectMesh func lb = [⟨.v08885, "Task shader is bound."⟩]) ∧
      (lb.taskShader.isSome → lb.meshShader = none →
        validateDrawShaderObjectMesh func lb = [⟨.v08885, "Mesh shader is bound."⟩]) := by
  intro func lb hfunc
  unfold validateDrawShaderObjectMesh
  rw [if_neg hfunc]
  dsimp only
  refine ⟨?_, ?_, ?_⟩
  · intro hsome
    rw [if_pos (by rcases hsome with h | h <;> simp [h])]
    rfl
  · intro hmesh htask
    rw [htask]
    rw [if_pos (by simp [hmesh])]
    simp [hmesh]
  · intro htask hmesh
    rw [hmesh]
    rw [if_pos (by simp [htask])]
    simp [htask]

/-- C10 witness: a plain `vkCmdDraw` with only a mesh shader bound produces
the message naming the task stage, and with only a task shader bound the
message naming the mesh stage. -/
theorem c10_witness :
    validateDrawShaderObjectMesh .vkCmdDraw
        ⟨none, none, some ⟨VK_SHADER_STAGE_MESH_BIT_EXT, 0⟩⟩ =
      [⟨.v08885, "Task shader is bound."⟩] ∧
    validateDrawShaderObjectMesh .vkCmdDraw
        ⟨none, some ⟨VK_SHADER_STAGE_TASK_BIT_EXT, 0⟩, none⟩ =
      [⟨.v08885, "Mesh shader is bound."⟩] :=
  ⟨(c10_mesh_draw_message_swapped .vkCmdDraw
      ⟨none, none, some ⟨VK_SHADER_STAGE_MESH_BIT_EXT, 0⟩⟩ (by decide)).2.1 (by decide) rfl,
   (c10_mesh_draw_message_swapped .vkCmdDraw
      ⟨none, some ⟨VK_SHADER_STAGE_TASK_BIT_EXT, 0⟩, none⟩ (by decide)).2.2 (by decide) rfl⟩

/-- C4 witness: the walk characterization applied at concrete inputs — the
task stage's walk on the empty batch, and a ray-tracing stage (raygen,
0x100), outside both chains, having no expected next stage. -/
theorem c4_witness :
    findNextStage [] VK_SHADER_STAGE_TASK_BIT_EXT =
      (specNextInOrderPresent [] VK_SHADER_STAGE_TASK_BIT_EXT).getD 0 ∧
    specNextInOrderPresent [] 0x00000100 = none :=
  ⟨(c4_next_stage_walk_characterization.1 [] VK_SHADER_STAGE_TASK_BIT_EXT).1,
   (c4_next_stage_walk_characterization.2.2 []).2.2 0x00000100 (by decide) (by decide)⟩
